import Mathlib

/-!
Verification development for the academic-year-scoped enrollment and
promotion engine of the `devlearningcircle/backend` repository.

The definitions below are a shallow embedding of the TypeScript source:

* `src/students/students.service.ts` (`StudentsService`): `promote`,
  `promoteBulk`, `reAdmit`, `reAdmitBulk`, `update`, and the private
  helpers `assertIsCurrentAcademicYear`, `assertNextAcademicYear`,
  `parseAYLabel`, `getAcademicYearById`, `normEmail`, `normRoll`.
* `src/common/utils/id-generator.ts`: `generateRollNumber`.
* The Mongoose schemas: `enrollment.schema.ts` (unique indexes on
  `(studentId, academicYearId)` and `(academicYearId, rollNumber)`),
  `student.schema.ts`, `class.schema.ts`, `section.schema.ts`,
  `academic-year.schema.ts`.

Modelling conventions:

* Mongo collections are Lean lists in insertion order; `findOne` /
  `find` without an explicit sort are `List.find?` / `List.filter`.
* All exceptions become values of `Err`.  `BadRequestException`
  (NestJS, HTTP 400) is `Err.badRequest`, `NotFoundException` is
  `Err.notFound`, and an *unhandled* Mongo duplicate-key error
  (code 11000, surfaced raw because no catch maps it) is `Err.dupKey`.
* Each service call is a function `DB → ... → Except Err α × DB`; the
  returned `DB` is the committed state after the call.  A Mongo
  `session.withTransaction` body either commits all its writes or none:
  on any error raised inside the body the original `DB` is returned,
  which models the rollback.
* Optional string-valued JS fields are `Option String`; JS truthiness on
  a plain string field (`if (x)`) is `x ≠ ""` via `jsTruthy`, and a
  student document's possibly-unset `classId`/`sectionId` fields are
  plain strings where `""` stands for `undefined` (the service only ever
  tests them for truthiness or copies them).
* JS `Date` values (`startDate`, `endDate`) are integer timestamps; the
  academic-year schema marks both as `required`, but the service reads
  them through the structural type `AcademicYearLike` where they are
  optional, so they are `Option Int` here as well.
-/

deriving instance DecidableEq for Except

namespace DevLearningCircle

/-- JS truthiness of a plain string (`''` is the only falsy string). -/
def jsTruthy (s : String) : Bool := s ≠ ""

/-- `String.prototype.toUpperCase` (over the characters). -/
def jsToUpper (s : String) : String := String.mk (s.data.map Char.toUpper)

/-- `String.prototype.toLowerCase` (over the characters). -/
def jsToLower (s : String) : String := String.mk (s.data.map Char.toLower)

/-- `String.prototype.trim`: drop whitespace at both ends. -/
def jsTrim (s : String) : String :=
  String.mk (((s.data.dropWhile Char.isWhitespace).reverse.dropWhile Char.isWhitespace).reverse)

/-- String prefix test (Mongo `{ $regex: '^' + escaped(pref) }`). -/
def strPrefB (p s : String) : Bool := p.data.isPrefixOf s.data

/-- Binary (codepoint) strict comparison of char lists, the order Mongo
uses to sort plain ASCII strings. -/
def charListLe : List Char → List Char → Bool
  | [], _ => true
  | _ :: _, [] => false
  | a :: l1, b :: l2 =>
    if a.toNat < b.toNat then true
    else if b.toNat < a.toNat then false
    else charListLe l1 l2

/-- `a ≤ b` on strings in Mongo's binary collation. -/
def strLeB (a b : String) : Bool := charListLe a.data b.data

/-- JS `a || b` over optional strings: the left value wins only when it
is present and truthy (the empty string falls through, as in JS). -/
def jsOrString (a b : Option String) : Option String :=
  match a with
  | some s => if jsTruthy s then some s else b
  | none => b

/-- `String.prototype.padStart(3, '0')` of the decimal rendering of `n`. -/
def padStart3 (s : String) : String :=
  if s.length ≥ 3 then s else (String.mk (List.replicate (3 - s.length) '0')) ++ s

/-- The trailing run of decimal digits of `s` (JS `s.match(/(\d+)$/)`),
`none` when `s` does not end with a digit. -/
def trailingDigits (s : String) : Option String :=
  let ds := (s.data.reverse.takeWhile Char.isDigit).reverse
  if ds.isEmpty then none else some (String.mk ds)

/-- Stable insertion used by `stableSort`. -/
def sortInsert (le : α → α → Bool) (x : α) : List α → List α
  | [] => [x]
  | y :: ys => if le x y then x :: y :: ys else y :: sortInsert le x ys

/-- A stable sort (JS `Array.prototype.sort` is stable per ES2019):
`x` ends up before `y` whenever `le x y` and `x` preceded `y`. -/
def stableSort (le : α → α → Bool) : List α → List α
  | [] => []
  | x :: xs => sortInsert le x (stableSort le xs)

/-! ## Data model -/

/-- An academic-year document as the students service sees it.  The
schema (`academic-year.schema.ts`) defines `name`, `startDate`,
`endDate`, `isActive`, `isCurrent`; the service additionally reads the
structural fields `label` and `order` (type `AcademicYearLike` in
`students.service.ts`), which no schema defines and no writer sets, so
they are optional here. -/
structure AcademicYear where
  _id : String
  name : String
  label : Option String
  order : Option Int
  startDate : Option Int
  endDate : Option Int
  isActive : Bool
  isCurrent : Bool
  deriving Repr, DecidableEq

/-- A class document (`class.schema.ts`): unique lowercased `name`,
optional unique `order` used to infer "the next class". -/
structure SchoolClass where
  _id : String
  name : String
  order : Option Int
  deriving Repr, DecidableEq

/-- A section document (`section.schema.ts`): lowercased `name`, unique
per `(classId, name)`. -/
structure SchoolSection where
  _id : String
  name : String
  classId : String
  deriving Repr, DecidableEq

/-- A student document restricted to the enrollment snapshot fields the
engine reads and writes (`student.schema.ts`): current `classId`,
`sectionId`, `academicYearId`, `rollNumber`, plus `name` and `email`
which the service consults in `update` and `reAdmitBulk`. -/
structure Student where
  _id : String
  name : String
  email : String
  rollNumber : String
  classId : String
  sectionId : String
  academicYearId : String
  deriving Repr, DecidableEq

/-- An enrollment-ledger document (`enrollment.schema.ts`). -/
structure Enrollment where
  studentId : String
  academicYearId : String
  classId : String
  sectionId : String
  rollNumber : String
  deriving Repr, DecidableEq

/-- The database state shared by all requests. -/
structure DB where
  years : List AcademicYear
  classes : List SchoolClass
  sections : List SchoolSection
  students : List Student
  enrollments : List Enrollment
  deriving Repr, DecidableEq

/-- Service errors.  `badRequest` is NestJS `BadRequestException`
(the class the spec calls `ValidationError`), `notFound` is
`NotFoundException`, `dupKey` is a raw Mongo duplicate-key error
(code 11000) that no handler translated. -/
inductive Err where
  | badRequest (msg : String)
  | notFound (msg : String)
  | dupKey (msg : String)
  deriving Repr, DecidableEq

/-- `err.message`, as read by the `reAdmitBulk` error collector. -/
def Err.message : Err → String
  | .badRequest m => m
  | .notFound m => m
  | .dupKey m => m

/-- Normalise a JS optional-string argument: a missing or falsy (empty)
value becomes `none`.  Used to model `if (x) ...` guards on DTO fields. -/
def jsOpt (o : Option String) : Option String :=
  match o with
  | some s => if jsTruthy s then some s else none
  | none => none

/-! ## Lookups (`findById` / `findOne` on the collections) -/

def findStudent (db : DB) (id : String) : Option Student :=
  db.students.find? (fun s => s._id == id)

def findClass (db : DB) (id : String) : Option SchoolClass :=
  db.classes.find? (fun c => c._id == id)

def findSection (db : DB) (id : String) : Option SchoolSection :=
  db.sections.find? (fun s => s._id == id)

/-- `StudentsService.getAcademicYearById`: `findById().lean()` on the
AcademicYear model, `BadRequestException` when absent. -/
def getAcademicYearById (db : DB) (id : String) : Except Err AcademicYear :=
  match db.years.find? (fun y => y._id == id) with
  | none => .error (.badRequest "Academic year not found")
  | some y => .ok y

/-! ## Roll-number generation (`id-generator.ts`) -/

/-- Maximum of a list of strings under Mongo's binary string order
(models `.sort({ rollNumber: -1 }).findOne()`). -/
def maxString : List String → Option String
  | [] => none
  | s :: ss =>
    match maxString ss with
    | none => some s
    | some t => some (if strLeB t s then s else t)

/-- `parseInt` of a nonempty decimal-digit string. -/
def parseDigits (s : String) : Nat :=
  s.data.foldl (fun n c => n * 10 + (c.toNat - 48)) 0

/-- `generateRollNumber(enrollmentModel, className, sectionName,
academicYearId)`: uppercase-and-trim both names, take the
lexicographically greatest existing roll number in the year with the
computed prefix, add 1 to its trailing digits (1 when none), and pad
to three digits. -/
def generateRollNumber (enrollments : List Enrollment)
    (className sectionName academicYearId : String) : String :=
  let normalizedClass := jsTrim (jsToUpper className)
  let normalizedSection := jsTrim (jsToUpper sectionName)
  let rollPref := normalizedClass ++ "-" ++ normalizedSection ++ "-"
  let latest := maxString ((enrollments.filter (fun e =>
    e.academicYearId == academicYearId && strPrefB rollPref e.rollNumber)).map
      (fun e => e.rollNumber))
  let nextNumber : Nat :=
    match latest with
    | none => 1
    | some r =>
      match trailingDigits r with
      | some ds => parseDigits ds + 1
      | none => 1
  rollPref ++ padStart3 (toString nextNumber)

/-! ## Academic-year validators -/

/-- Four leading decimal digits of a character list, with the rest. -/
def takeDigits4 : List Char → Option (Int × List Char)
  | a :: b :: c :: d :: rest =>
    if a.isDigit && b.isDigit && c.isDigit && d.isDigit then
      some ((Int.ofNat ((a.toNat - 48) * 1000 + (b.toNat - 48) * 100 +
             (c.toNat - 48) * 10 + (d.toNat - 48))), rest)
    else none
  | _ => none

/-- `StudentsService.parseAYLabel`: match the label against
`/^(\d{4})\s*-\s*(\d{4})$/` and return the two year components. -/
def parseAYLabel (label : Option String) : Option (Int × Int) :=
  match label with
  | none => none
  | some s =>
    match takeDigits4 s.data with
    | none => none
    | some (y1, rest) =>
      match rest.dropWhile Char.isWhitespace with
      | '-' :: rest2 =>
        match takeDigits4 (rest2.dropWhile Char.isWhitespace) with
        | some (y2, []) => some (y1, y2)
        | _ => none
      | _ => none

/-- The JS sort comparator `(a, b) => dateB - dateA` (descending by
`startDate`); a missing date gives `NaN`, which `Array.sort` treats as
0, i.e. "keep relative order". -/
def byStartDateDesc (a b : AcademicYear) : Bool :=
  match a.startDate, b.startDate with
  | some x, some y => y ≤ x
  | _, _ => true

/-- The current-year resolution inside
`StudentsService.assertIsCurrentAcademicYear`: the record flagged
`isCurrent`, else the most-recently-started active record. -/
def resolveCurrentYear (db : DB) : Except Err AcademicYear :=
  match db.years.find? (fun y => y.isCurrent) with
  | some current => .ok current
  | none =>
    match stableSort byStartDateDesc (db.years.filter (fun y => y.isActive)) with
    | [] => .error (.badRequest
        "No current or active academic year is set. Please set a current year first.")
    | current :: _ => .ok current

/-- `StudentsService.assertIsCurrentAcademicYear`. -/
def assertIsCurrentAcademicYear (db : DB) (yearId : String) : Except Err Unit :=
  match resolveCurrentYear db with
  | .error e => .error e
  | .ok current =>
    if current._id ≠ yearId then
      .error (.badRequest
        "Promotion is only allowed from the current academic year. Please select the current academic year in the topbar.")
    else .ok ()

/-- `StudentsService.assertNextAcademicYear`: reject same year; prefer
numeric `order` (+1 required); else parse `label` as "YYYY-YYYY" (+1 on
both); else compare dates (`toStart > fromEnd` accepted); else fail. -/
def assertNextAcademicYear (db : DB) (fromId toId : String) : Except Err Unit :=
  if fromId == toId then
    .error (.badRequest "Target academic year must be the next one (cannot use the same year).")
  else
    match getAcademicYearById db fromId with
    | .error e => .error e
    | .ok fromYear =>
      match getAcademicYearById db toId with
      | .error e => .error e
      | .ok toYear =>
        match fromYear.order, toYear.order with
        | some fo, some t_o =>
          if t_o ≠ fo + 1 then
            .error (.badRequest "Target academic year must be the immediate next year.")
          else .ok ()
        | _, _ =>
          match parseAYLabel fromYear.label, parseAYLabel toYear.label with
          | some pf, some pt =>
            if pt.1 == pf.1 + 1 && pt.2 == pf.2 + 1 then .ok ()
            else .error (.badRequest "Target academic year must be the immediate next year.")
          | _, _ =>
            match fromYear.endDate, toYear.startDate with
            | some fromEnd, some toStart =>
              if fromEnd < toStart then .ok ()
              else .error (.badRequest
                "Cannot verify academic year sequence; ensure the target is the next year.")
            | _, _ => .error (.badRequest
                "Cannot verify academic year sequence; ensure the target is the next year.")

/-! ## Ledger writes

`enrollment.schema.ts` declares unique indexes on
`(studentId, academicYearId)` and `(academicYearId, rollNumber)`;
an insert violating either raises a duplicate-key error. -/

/-- Both unique indexes admit `e` on top of ledger `l`. -/
def enrollmentKeyFree (l : List Enrollment) (e : Enrollment) : Bool :=
  l.all (fun f =>
    !((f.studentId == e.studentId && f.academicYearId == e.academicYearId) ||
      (f.academicYearId == e.academicYearId && f.rollNumber == e.rollNumber)))

/-- `enrollmentModel.create`: append, or raise the duplicate-key error. -/
def insertEnrollment (l : List Enrollment) (e : Enrollment) : Except Err (List Enrollment) :=
  if enrollmentKeyFree l e then .ok (l ++ [e])
  else .error (.dupKey "E11000 duplicate key error")

/-- `enrollmentModel.insertMany(docs, { ordered: false })` with the
surrounding `try {} catch {}`: keep every insert that does not violate a
unique index, silently drop the rest. -/
def insertManyUnordered (l : List Enrollment) (docs : List Enrollment) : List Enrollment :=
  docs.foldl (fun acc d => if enrollmentKeyFree acc d then acc ++ [d] else acc) l

/-- `findOneAndUpdate` on enrollments (`upsert: false`): rewrite the
first document matching `p`, leave everything else alone. -/
def updateFirstEnrollment (p : Enrollment → Bool) (f : Enrollment → Enrollment) :
    List Enrollment → List Enrollment
  | [] => []
  | e :: es => if p e then f e :: es else e :: updateFirstEnrollment p f es

/-- The primitive student write: rewrite the document(s) with `_id = sid`
by `f` (Mongo `_id`s are unique, so at most one document changes). -/
def applySet (f : Student → Student) (sid : String) (students : List Student) : List Student :=
  students.map (fun t => if t._id == sid then f t else t)

/-- `student.save()` / `findByIdAndUpdate`: replace the document with
this `_id`. -/
def saveStudent (students : List Student) (st : Student) : List Student :=
  applySet (fun _ => st) st._id students

/-! ## `StudentsService.promote` (single promotion) -/

/-- `promote(studentId, classId, sectionId, academicYearId)`:
current-year gate, next-year gate, duplicate-enrollment check, then a
transaction appending one ledger row (carrying the existing roll
number) and updating the snapshot. -/
def promote (db : DB) (studentId classId sectionId academicYearId : String) :
    Except Err Student × DB :=
  match findStudent db studentId with
  | none => (.error (.notFound "Student not found"), db)
  | some student =>
    match assertIsCurrentAcademicYear db student.academicYearId with
    | .error e => (.error e, db)
    | .ok _ =>
      match assertNextAcademicYear db student.academicYearId academicYearId with
      | .error e => (.error e, db)
      | .ok _ =>
        let rollNumber := student.rollNumber
        if db.enrollments.any (fun e =>
            e.studentId == studentId && e.academicYearId == academicYearId) then
          (.error (.badRequest "Student already has an enrollment for this academic year"), db)
        else
          match insertEnrollment db.enrollments
              { studentId, academicYearId, classId, sectionId, rollNumber } with
          | .error e => (.error e, db)
          | .ok enrollments' =>
            let student' := { student with
              classId := classId, sectionId := sectionId, academicYearId := academicYearId }
            (.ok student',
             { db with enrollments := enrollments',
                       students := saveStudent db.students student' })

/-! ## `StudentsService.promoteBulk` -/

/-- The body of `PromoteBulkDto` (fields as consumed by `promoteBulk`). -/
structure PromoteBulkDto where
  fromClassId : String
  fromAcademicYearId : Option String
  toAcademicYearId : String
  fromSectionId : Option String
  targetClassId : Option String
  targetSectionId : Option String
  studentIds : Option (List String)
  deriving Repr, DecidableEq

/-- The candidate filter
`{ classId: fromClassId, academicYearId: fromAY, sectionId?, _id? }`. -/
def selectPromoteCandidates (db : DB) (dto : PromoteBulkDto) (fromAY : String) :
    List Student :=
  db.students.filter (fun s =>
    s.classId == dto.fromClassId && s.academicYearId == fromAY &&
    (match jsOpt dto.fromSectionId with
     | some sec => s.sectionId == sec
     | none => true) &&
    (match dto.studentIds with
     | some ids => if ids.length > 0 then ids.contains s._id else true
     | none => true))

/-- Ascending comparator on class `order` (candidates always carry one). -/
def byClassOrderAsc (a b : SchoolClass) : Bool :=
  match a.order, b.order with
  | some x, some y => x ≤ y
  | _, _ => true

/-- Target-class resolution: explicit `targetClassId`, else the class
with the least `order` strictly greater than the source class's. -/
def resolveTargetClassId (db : DB) (dto : PromoteBulkDto) : Except Err String :=
  match jsOpt dto.targetClassId with
  | some tc => .ok tc
  | none =>
    match findClass db dto.fromClassId with
    | none => .error (.badRequest "Cannot infer next class: current class not found or has no order")
    | some currentClass =>
      match currentClass.order with
      | none => .error (.badRequest "Cannot infer next class: current class not found or has no order")
      | some curOrder =>
        match stableSort byClassOrderAsc
            (db.classes.filter (fun c => c.order.any (fun o => curOrder < o))) with
        | [] => .error (.badRequest "No next class configured after current class")
        | next :: _ => .ok next._id

/-- The source-to-target section mapping built when no explicit target
section was given: match sections used by the candidates against the
target class's sections by case-insensitive name. -/
def buildSectionMapping (db : DB) (students : List Student) (targetClassId : String) :
    Option (List (String × String)) :=
  let uniqueSectionIds := ((students.map (fun s => s.sectionId)).filter jsTruthy).eraseDups
  if uniqueSectionIds.length > 0 then
    let sourceSections := db.sections.filter (fun s => uniqueSectionIds.contains s._id)
    let targetSections := db.sections.filter (fun s => s.classId == targetClassId)
    some (sourceSections.filterMap (fun src =>
      (targetSections.find? (fun t => jsToLower t.name == jsToLower src.name)).map
        (fun tgt => (src._id, tgt._id))))
  else none

/-- The message of the unmapped-section `BadRequestException` (it cites
the offending source section id). -/
def noMatchingSectionMsg (currentSectionId : String) : String :=
  "No matching section found in target class for section ID: " ++
    currentSectionId ++ ". Please specify a target section."

/-- The `getTargetSectionId` closure inside the bulk transaction:
explicit target section wins; else consult the mapping, raising a
`BadRequestException` naming the unmapped source section; else keep the
current section id. -/
def getTargetSectionId (dtoTargetSectionId : Option String)
    (sectionMapping : Option (List (String × String))) (currentSectionId : String) :
    Except Err String :=
  match jsOpt dtoTargetSectionId with
  | some t => .ok t
  | none =>
    match sectionMapping with
    | some mapping =>
      if jsTruthy currentSectionId then
        match mapping.lookup currentSectionId with
        | some mapped => .ok mapped
        | none => .error (.badRequest (noMatchingSectionMsg currentSectionId))
      else .ok currentSectionId
    | none => .ok currentSectionId

/-- Effectful `Array.prototype.map` over a throwing callback: the first
element whose image throws aborts the whole map with that error. -/
def mapExcept (f : α → Except Err β) : List α → Except Err (List β)
  | [] => .ok []
  | a :: rest =>
    match f a with
    | .error e => .error e
    | .ok b =>
      match mapExcept f rest with
      | .error e => .error e
      | .ok bs => .ok (b :: bs)

/-- One `bulkWrite` `updateOne` (`filter: {_id}`, `$set` the three
snapshot placement fields); Mongo's `modifiedCount` counts only
documents actually changed. -/
def applyStudentSet (students : List Student) (id tc ay sec : String) :
    List Student × Nat :=
  match students.find? (fun t => t._id == id) with
  | none => (students, 0)
  | some t =>
    let t' := { t with classId := tc, academicYearId := ay, sectionId := sec }
    if t' == t then (students, 0)
    else (applySet (fun u => { u with classId := tc, academicYearId := ay, sectionId := sec }) id students, 1)

/-- The whole `bulkWrite`: the per-student `$set` values coincide with
the corresponding ledger document's fields, so the ops are derived from
the docs. -/
def applyPromoteSets (students : List Student) (docs : List Enrollment) :
    List Student × Nat :=
  docs.foldl (fun acc d =>
    let r := applyStudentSet acc.1 d.studentId d.classId d.academicYearId d.sectionId
    (r.1, acc.2 + r.2)) (students, 0)

/-- The ledger document built for one candidate inside the bulk
transaction; the `bulkWrite` snapshot `$set` uses the same three values
(`classId`, `academicYearId`, `sectionId`), so it is derived from this
document. -/
def promoteDocBuilder (dto : PromoteBulkDto) (sectionMapping : Option (List (String × String)))
    (targetClassId : String) (s : Student) : Except Err Enrollment :=
  (getTargetSectionId dto.targetSectionId sectionMapping s.sectionId).map
    (fun sec =>
      { studentId := s._id, academicYearId := dto.toAcademicYearId,
        classId := targetClassId, sectionId := sec, rollNumber := s.rollNumber })

/-- The section mapping in scope during the bulk transaction (`null`
when an explicit target section was supplied). -/
def promoteSectionMapping (db : DB) (dto : PromoteBulkDto) (students : List Student)
    (targetClassId : String) : Option (List (String × String)) :=
  match jsOpt dto.targetSectionId with
  | some _ => none
  | none => buildSectionMapping db students targetClassId

/-- `promoteBulk` result object; the early no-candidates return carries
only the first three fields (`none` elsewhere). -/
structure PromoteBulkResult where
  selected : Nat
  matched : Nat
  modified : Nat
  toAcademicYearId : Option String
  targetClassId : Option String
  targetSectionId : Option String
  deriving Repr, DecidableEq

/-- `promoteBulk(dto, headerAY)`. -/
def promoteBulk (db : DB) (dto : PromoteBulkDto) (headerAY : Option String) :
    Except Err PromoteBulkResult × DB :=
  match jsOpt (jsOrString dto.fromAcademicYearId headerAY) with
  | none => (.error (.badRequest "fromAcademicYearId (or x-academic-year-id) is required"), db)
  | some fromAY =>
    match assertIsCurrentAcademicYear db fromAY with
    | .error e => (.error e, db)
    | .ok _ =>
      let students := selectPromoteCandidates db dto fromAY
      if students.isEmpty then
        (.ok { selected := (dto.studentIds.map List.length).getD 0, matched := 0, modified := 0,
               toAcademicYearId := none, targetClassId := none, targetSectionId := none }, db)
      else
        match assertNextAcademicYear db fromAY dto.toAcademicYearId with
        | .error e => (.error e, db)
        | .ok _ =>
          match resolveTargetClassId db dto with
          | .error e => (.error e, db)
          | .ok targetClassId =>
            let sectionMapping := promoteSectionMapping db dto students targetClassId
            match mapExcept (promoteDocBuilder dto sectionMapping targetClassId) students with
            | .error e => (.error e, db)
            | .ok docs =>
              let enrollments' := insertManyUnordered db.enrollments docs
              let updated := applyPromoteSets db.students docs
              (.ok { selected := students.length, matched := students.length,
                     modified := updated.2,
                     toAcademicYearId := some dto.toAcademicYearId,
                     targetClassId := some targetClassId,
                     targetSectionId := dto.targetSectionId },
               { db with enrollments := enrollments', students := updated.1 })

/-! ## `StudentsService.reAdmit` (single re-admission) -/

/-- `reAdmit(studentId, classId, sectionId, academicYearId)`: no year
gates; duplicate-enrollment check; fresh roll number for the target
placement; one ledger row plus full snapshot update in a transaction. -/
def reAdmit (db : DB) (studentId classId sectionId academicYearId : String) :
    Except Err Student × DB :=
  match findStudent db studentId with
  | none => (.error (.notFound "Student not found"), db)
  | some student =>
    if db.enrollments.any (fun e =>
        e.studentId == studentId && e.academicYearId == academicYearId) then
      (.error (.badRequest "Student already has an enrollment for this academic year"), db)
    else
      match findClass db classId with
      | none => (.error (.badRequest "Class not found"), db)
      | some classDoc =>
        match findSection db sectionId with
        | none => (.error (.badRequest "Section not found"), db)
        | some sectionDoc =>
          let rollNumber :=
            generateRollNumber db.enrollments classDoc.name sectionDoc.name academicYearId
          match insertEnrollment db.enrollments
              { studentId, academicYearId, classId, sectionId, rollNumber } with
          | .error e => (.error e, db)
          | .ok enrollments' =>
            let student' := { student with
              classId := classId, sectionId := sectionId,
              academicYearId := academicYearId, rollNumber := rollNumber }
            (.ok student',
             { db with enrollments := enrollments',
                       students := saveStudent db.students student' })

/-! ## `StudentsService.reAdmitBulk` -/

/-- One element of the `errors` array reported by `reAdmitBulk`. -/
structure ReAdmitErrorEntry where
  studentId : String
  name : String
  error : String
  deriving Repr, DecidableEq

/-- `reAdmitBulk` result object (`errors` is omitted when empty). -/
structure ReAdmitBulkResult where
  total : Nat
  successful : Nat
  failed : Nat
  errors : Option (List ReAdmitErrorEntry)
  deriving Repr, DecidableEq

/-- The in-transaction state of the `reAdmitBulk` loop. -/
structure ReAdmitLoopState where
  enrollments : List Enrollment
  students : List Student
  successCount : Nat
  errors : List ReAdmitErrorEntry
  deriving Repr, DecidableEq

/-- One iteration of the `reAdmitBulk` loop.  The already-enrolled check
and `generateRollNumber` run *without* the transaction session, so both
read the committed pre-call ledger `db₀.enrollments`, not the rows this
transaction has inserted so far; the `create` checks the unique indexes
against the transaction state and a failure is caught into `errors`. -/
def reAdmitStep (db₀ : DB) (classId sectionId academicYearId className sectionName : String)
    (st : ReAdmitLoopState) (student : Student) : ReAdmitLoopState :=
  let studentId := student._id
  if db₀.enrollments.any (fun e =>
      e.studentId == studentId && e.academicYearId == academicYearId) then
    { st with errors := st.errors ++
        [{ studentId, name := student.name, error := "Already enrolled for this year" }] }
  else
    let rollNumber :=
      generateRollNumber db₀.enrollments className sectionName academicYearId
    match insertEnrollment st.enrollments
        { studentId, academicYearId, classId, sectionId, rollNumber } with
    | .error e =>
      { st with errors := st.errors ++
          [{ studentId, name := student.name, error := e.message }] }
    | .ok enrollments' =>
      { enrollments := enrollments',
        students := applySet (fun t =>
            { t with classId := classId, sectionId := sectionId,
                     academicYearId := academicYearId, rollNumber := rollNumber })
          studentId st.students,
        successCount := st.successCount + 1,
        errors := st.errors }

/-- `reAdmitBulk(studentIds, classId, sectionId, academicYearId)`. -/
def reAdmitBulk (db : DB) (studentIds : List String)
    (classId sectionId academicYearId : String) :
    Except Err ReAdmitBulkResult × DB :=
  if studentIds.isEmpty then (.error (.badRequest "Student IDs are required"), db)
  else
    match findClass db classId with
    | none => (.error (.badRequest "Class not found"), db)
    | some classDoc =>
      match findSection db sectionId with
      | none => (.error (.badRequest "Section not found"), db)
      | some sectionDoc =>
        let students := db.students.filter (fun s => studentIds.contains s._id)
        if students.isEmpty then (.error (.badRequest "No valid students found"), db)
        else
          let final := students.foldl
            (reAdmitStep db classId sectionId academicYearId classDoc.name sectionDoc.name)
            { enrollments := db.enrollments, students := db.students,
              successCount := 0, errors := [] }
          (.ok { total := studentIds.length, successful := final.successCount,
                 failed := final.errors.length,
                 errors := if final.errors.length > 0 then some final.errors else none },
           { db with enrollments := final.enrollments, students := final.students })

/-! ## `StudentsService.update` (general student update)

Only the DTO fields that touch the enrollment data model are modelled;
the remaining fields (`password`, guardian and parent details, document
URLs, custom arrays, ...) are copied verbatim into fields outside this
model and interact with none of the checks below. -/

structure UpdateStudentDto where
  name : Option String
  email : Option String
  rollNumber : Option String
  classId : Option String
  sectionId : Option String
  academicYearId : Option String
  deriving Repr, DecidableEq

/-- `normEmail`: trim then lowercase. -/
def normEmail (email : String) : String := jsToLower (jsTrim email)

/-- `normRoll`: trim. -/
def normRoll (roll : String) : String := jsTrim roll

/-- Builds the `$set` payload (`toUpdate`) and applies it. -/
def applyToUpdate (t : Student) (dto : UpdateStudentDto) : Student :=
  let t := match dto.name with | some v => { t with name := jsTrim v } | none => t
  let t := match dto.email with | some v => { t with email := normEmail v } | none => t
  let t := match dto.rollNumber with | some v => { t with rollNumber := normRoll v } | none => t
  let t := match dto.classId with | some v => { t with classId := v } | none => t
  let t := match dto.sectionId with | some v => { t with sectionId := v } | none => t
  let t := match dto.academicYearId with | some v => { t with academicYearId := v } | none => t
  t

/-- The final `findByIdAndUpdate` on the student document(`null` result
when the id is unknown, no exception). -/
def updateSnapshot (db : DB) (id : String) (dto : UpdateStudentDto) :
    Except Err (Option Student) × DB :=
  match findStudent db id with
  | none => (.ok none, db)
  | some t =>
    let t' := applyToUpdate t dto
    (.ok (some t'), { db with students := saveStudent db.students t' })

/-- The write phase of `update`: when `classId` or `sectionId` is being
updated, first rewrite the enrollment row for the student's *current*
academic year (`findOneAndUpdate`, `upsert: false`), then update the
snapshot. -/
def updateCore (db : DB) (id : String) (dto : UpdateStudentDto) :
    Except Err (Option Student) × DB :=
  if dto.classId.isSome || dto.sectionId.isSome then
    match findStudent db id with
    | none => (.error (.badRequest "Student not found"), db)
    | some currentStudent =>
      let finalClassId := dto.classId.getD currentStudent.classId
      let finalSectionId := dto.sectionId.getD currentStudent.sectionId
      let academicYearId := currentStudent.academicYearId
      let enrollments' := updateFirstEnrollment
        (fun e => e.studentId == id && e.academicYearId == academicYearId)
        (fun e => { e with classId := finalClassId, sectionId := finalSectionId })
        db.enrollments
      updateSnapshot { db with enrollments := enrollments' } id dto
  else updateSnapshot db id dto

/-- `update(id, dto)`: email-uniqueness pre-check, snapshot
roll-number-uniqueness pre-check, then the write phase. -/
def update (db : DB) (id : String) (dto : UpdateStudentDto) :
    Except Err (Option Student) × DB :=
  if (match dto.email with
      | some e => db.students.any (fun s => s.email == normEmail e && s._id ≠ id)
      | none => false) then
    (.error (.badRequest "Email already exists"), db)
  else if dto.academicYearId.isSome || dto.rollNumber.isSome then
    match findStudent db id with
    | none => (.error (.badRequest "Student not found"), db)
    | some current =>
      let finalAcademicYearId := dto.academicYearId.getD current.academicYearId
      let finalRollNumber :=
        match dto.rollNumber with
        | some r => normRoll r
        | none => current.rollNumber
      if db.students.any (fun s =>
          s.academicYearId == finalAcademicYearId && s.rollNumber == finalRollNumber &&
          s._id ≠ id) then
        (.error (.badRequest "Roll number already exists for this academic year"), db)
      else updateCore db id dto
  else updateCore db id dto

/-! ## Shared lemmas -/

theorem getAcademicYearById_error_shape (db : DB) (a : String) (e : Err)
    (h : getAcademicYearById db a = .error e) : ∃ m, e = .badRequest m := by
  unfold getAcademicYearById at h
  split at h
  · injection h with hh; exact ⟨_, hh.symm⟩
  · cases h

theorem assertIsCurrent_error_shape (db : DB) (y : String) (e : Err)
    (h : assertIsCurrentAcademicYear db y = .error e) : ∃ m, e = .badRequest m := by
  unfold assertIsCurrentAcademicYear resolveCurrentYear at h
  cases hf : db.years.find? (fun x => x.isCurrent) with
  | some z =>
    simp only [hf] at h
    split at h
    · injection h with hh; exact ⟨_, hh.symm⟩
    · simp at h
  | none =>
    simp only [hf] at h
    cases hs : stableSort byStartDateDesc (db.years.filter (fun x => x.isActive)) with
    | nil => simp only [hs] at h; injection h with hh; exact ⟨_, hh.symm⟩
    | cons z l =>
      simp only [hs] at h
      split at h
      · injection h with hh; exact ⟨_, hh.symm⟩
      · simp at h

theorem assertNext_error_shape (db : DB) (a b : String) (e : Err)
    (h : assertNextAcademicYear db a b = .error e) : ∃ m, e = .badRequest m := by
  unfold assertNextAcademicYear at h
  split at h
  · injection h with hh; exact ⟨_, hh.symm⟩
  · cases hga : getAcademicYearById db a with
    | error e1 =>
      simp only [hga] at h
      injection h with hh
      rcases getAcademicYearById_error_shape db a e1 hga with ⟨m, hm⟩
      exact ⟨m, by rw [← hh, hm]⟩
    | ok f =>
      simp only [hga] at h
      cases hgb : getAcademicYearById db b with
      | error e1 =>
        simp only [hgb] at h
        injection h with hh
        rcases getAcademicYearById_error_shape db b e1 hgb with ⟨m, hm⟩
        exact ⟨m, by rw [← hh, hm]⟩
      | ok t =>
        simp only [hgb] at h
        repeat' first
        | (injection h with hh; exact ⟨_, hh.symm⟩)
        | split at h
        | simp_all

theorem insertEnrollment_ok {l l' : List Enrollment} {e : Enrollment}
    (h : insertEnrollment l e = .ok l') : l' = l ++ [e] ∧ enrollmentKeyFree l e = true := by
  unfold insertEnrollment at h
  split at h
  · exact ⟨(Except.ok.inj h).symm, by assumption⟩
  · cases h

theorem insertManyUnordered_cons (l : List Enrollment) (d : Enrollment) (ds : List Enrollment) :
    insertManyUnordered l (d :: ds) =
      insertManyUnordered (if enrollmentKeyFree l d then l ++ [d] else l) ds := by
  unfold insertManyUnordered
  simp [List.foldl]

theorem insertManyUnordered_append (docs : List Enrollment) :
    ∀ l, ∃ tail, insertManyUnordered l docs = l ++ tail := by
  induction docs with
  | nil => exact fun l => ⟨[], by simp [insertManyUnordered]⟩
  | cons d ds ih =>
    intro l
    rw [insertManyUnordered_cons]
    by_cases hk : enrollmentKeyFree l d
    · rcases ih (l ++ [d]) with ⟨t, ht⟩
      exact ⟨[d] ++ t, by simp [hk, ht]⟩
    · rcases ih l with ⟨t, ht⟩
      exact ⟨t, by simp [hk, ht]⟩

theorem promote_enrollments_append (db : DB) (s c sec y : String) :
    ∃ tail, ((promote db s c sec y).2).enrollments = db.enrollments ++ tail := by
  unfold promote
  cases hf : findStudent db s with
  | none => exact ⟨[], by simp [hf]⟩
  | some st =>
    cases hc : assertIsCurrentAcademicYear db st.academicYearId with
    | error e => exact ⟨[], by simp [hf, hc]⟩
    | ok _ =>
      cases hn : assertNextAcademicYear db st.academicYearId y with
      | error e => exact ⟨[], by simp [hf, hc, hn]⟩
      | ok _ =>
        by_cases hdup : db.enrollments.any (fun e =>
            e.studentId == s && e.academicYearId == y) = true
        · exact ⟨[], by simp [hf, hc, hn, hdup]⟩
        · cases hins : insertEnrollment db.enrollments
              { studentId := s, academicYearId := y, classId := c, sectionId := sec,
                rollNumber := st.rollNumber } with
          | error e => exact ⟨[], by simp [hf, hc, hn, hdup, hins]⟩
          | ok l' =>
            exact ⟨[{ studentId := s, academicYearId := y, classId := c, sectionId := sec,
                      rollNumber := st.rollNumber }],
              by simp [hf, hc, hn, hdup, hins, (insertEnrollment_ok hins).1]⟩

theorem reAdmit_enrollments_append (db : DB) (s c sec y : String) :
    ∃ tail, ((reAdmit db s c sec y).2).enrollments = db.enrollments ++ tail := by
  unfold reAdmit
  cases hf : findStudent db s with
  | none => exact ⟨[], by simp [hf]⟩
  | some st =>
    by_cases hdup : db.enrollments.any (fun e =>
        e.studentId == s && e.academicYearId == y) = true
    · exact ⟨[], by simp [hf, hdup]⟩
    · cases hcl : findClass db c with
      | none => exact ⟨[], by simp [hf, hdup, hcl]⟩
      | some cd =>
        cases hsec : findSection db sec with
        | none => exact ⟨[], by simp [hf, hdup, hcl, hsec]⟩
        | some sd =>
          cases hins : insertEnrollment db.enrollments
              { studentId := s, academicYearId := y, classId := c, sectionId := sec,
                rollNumber := generateRollNumber db.enrollments cd.name sd.name y } with
          | error e => exact ⟨[], by simp [hf, hdup, hcl, hsec, hins]⟩
          | ok l' =>
            exact ⟨[{ studentId := s, academicYearId := y, classId := c, sectionId := sec,
                      rollNumber := generateRollNumber db.enrollments cd.name sd.name y }],
              by simp [hf, hdup, hcl, hsec, hins, (insertEnrollment_ok hins).1]⟩

theorem promoteBulk_enrollments_append (db : DB) (dto : PromoteBulkDto) (hd : Option String) :
    ∃ tail, ((promoteBulk db dto hd).2).enrollments = db.enrollments ++ tail := by
  unfold promoteBulk
  cases hay : jsOpt (jsOrString dto.fromAcademicYearId hd) with
  | none => exact ⟨[], by simp [hay]⟩
  | some fromAY =>
    cases hc : assertIsCurrentAcademicYear db fromAY with
    | error e => exact ⟨[], by simp [hay, hc]⟩
    | ok _ =>
      by_cases hempty : (selectPromoteCandidates db dto fromAY).isEmpty = true
      · exact ⟨[], by simp [hay, hc, hempty]⟩
      · cases hn : assertNextAcademicYear db fromAY dto.toAcademicYearId with
        | error e => exact ⟨[], by simp [hay, hc, hempty, hn]⟩
        | ok _ =>
          cases hrc : resolveTargetClassId db dto with
          | error e => exact ⟨[], by simp [hay, hc, hempty, hn, hrc]⟩
          | ok tc =>
            cases hmap : mapExcept
                (promoteDocBuilder dto
                  (promoteSectionMapping db dto (selectPromoteCandidates db dto fromAY) tc) tc)
                (selectPromoteCandidates db dto fromAY) with
            | error e => exact ⟨[], by simp [hay, hc, hempty, hn, hrc, hmap]⟩
            | ok docs =>
              rcases insertManyUnordered_append docs db.enrollments with ⟨t, ht⟩
              exact ⟨t, by simp [hay, hc, hempty, hn, hrc, hmap, ht]⟩

theorem reAdmitStep_enrollments_append (db₀ : DB) (cid sid ay cn sn : String)
    (st : ReAdmitLoopState) (stu : Student) :
    ∃ tail, (reAdmitStep db₀ cid sid ay cn sn st stu).enrollments = st.enrollments ++ tail := by
  unfold reAdmitStep
  by_cases hdup : db₀.enrollments.any (fun e =>
      e.studentId == stu._id && e.academicYearId == ay) = true
  · exact ⟨[], by simp [hdup]⟩
  · cases hins : insertEnrollment st.enrollments
        { studentId := stu._id, academicYearId := ay, classId := cid, sectionId := sid,
          rollNumber := generateRollNumber db₀.enrollments cn sn ay } with
    | error e => exact ⟨[], by simp [hdup, hins]⟩
    | ok l' =>
      exact ⟨[{ studentId := stu._id, academicYearId := ay, classId := cid, sectionId := sid,
                rollNumber := generateRollNumber db₀.enrollments cn sn ay }],
        by simp [hdup, hins, (insertEnrollment_ok hins).1]⟩

theorem reAdmitLoop_enrollments_append (db₀ : DB) (cid sid ay cn sn : String)
    (students : List Student) :
    ∀ st, ∃ tail,
      (students.foldl (reAdmitStep db₀ cid sid ay cn sn) st).enrollments =
        st.enrollments ++ tail := by
  induction students with
  | nil => exact fun st => ⟨[], by simp⟩
  | cons s ss ih =>
    intro st
    rcases reAdmitStep_enrollments_append db₀ cid sid ay cn sn st s with ⟨t1, ht1⟩
    rcases ih (reAdmitStep db₀ cid sid ay cn sn st s) with ⟨t2, ht2⟩
    exact ⟨t1 ++ t2, by simp [List.foldl, ht2, ht1]⟩

theorem reAdmitBulk_enrollments_append (db : DB) (sids : List String) (c sec y : String) :
    ∃ tail, ((reAdmitBulk db sids c sec y).2).enrollments = db.enrollments ++ tail := by
  unfold reAdmitBulk
  by_cases hemp : sids.isEmpty = true
  · exact ⟨[], by simp [hemp]⟩
  · cases hcl : findClass db c with
    | none => exact ⟨[], by simp [hemp, hcl]⟩
    | some cd =>
      cases hsec : findSection db sec with
      | none => exact ⟨[], by simp [hemp, hcl, hsec]⟩
      | some sd =>
        cases hstl : db.students.filter (fun s => sids.contains s._id) with
        | nil => exact ⟨[], by simp [hemp, hcl, hsec, hstl]⟩
        | cons a l =>
          rcases reAdmitLoop_enrollments_append db c sec y cd.name sd.name (a :: l)
            { enrollments := db.enrollments, students := db.students,
              successCount := 0, errors := [] } with ⟨t, ht⟩
          simp only [List.foldl_cons] at ht
          exact ⟨t, by simp [hemp, hcl, hsec, hstl, ht]⟩

/-- The per-entry relation of amended claim C5: an update leaves a
ledger entry untouched, or changes only `classId`/`sectionId` of the
entry belonging to the updated student's current snapshot year. -/
def UpdateEntryRel (db : DB) (id : String) (e e' : Enrollment) : Prop :=
  e' = e ∨
    (e'.studentId = e.studentId ∧ e'.academicYearId = e.academicYearId ∧
     e'.rollNumber = e.rollNumber ∧ e.studentId = id ∧
     ∃ cur, findStudent db id = some cur ∧ e.academicYearId = cur.academicYearId)

theorem updateFirstEnrollment_forall2 (R : Enrollment → Enrollment → Prop)
    (p : Enrollment → Bool) (f : Enrollment → Enrollment)
    (hrefl : ∀ e, R e e) (hpf : ∀ e, p e = true → R e (f e)) :
    ∀ l, List.Forall₂ R l (updateFirstEnrollment p f l) := by
  intro l
  induction l with
  | nil => exact List.Forall₂.nil
  | cons e es ih =>
    unfold updateFirstEnrollment
    by_cases hp : p e = true
    · simp only [hp, if_true]
      exact List.Forall₂.cons (hpf e hp) (List.forall₂_same.mpr (fun a _ => hrefl a))
    · simp only [hp, if_false]
      exact List.Forall₂.cons (hrefl e) ih

theorem updateSnapshot_enrollments (db : DB) (id : String) (dto : UpdateStudentDto) :
    ((updateSnapshot db id dto).2).enrollments = db.enrollments := by
  unfold updateSnapshot
  cases h : findStudent db id <;> simp [h]

theorem updateCore_enrollments (db : DB) (id : String) (dto : UpdateStudentDto) :
    ((updateCore db id dto).2).enrollments = db.enrollments ∨
    ∃ cur, findStudent db id = some cur ∧
      ((updateCore db id dto).2).enrollments = updateFirstEnrollment
        (fun e => e.studentId == id && e.academicYearId == cur.academicYearId)
        (fun e => { e with classId := dto.classId.getD cur.classId, sectionId := dto.sectionId.getD cur.sectionId })
        db.enrollments := by
  unfold updateCore
  by_cases hcs : (dto.classId.isSome || dto.sectionId.isSome) = true
  · cases hf : findStudent db id with
    | none => left; simp [hcs, hf]
    | some cur =>
      right
      refine ⟨cur, rfl, ?_⟩
      simp [hcs, hf, updateSnapshot_enrollments]
  · left
    simp [hcs, updateSnapshot_enrollments]

theorem update_db_cases (db : DB) (id : String) (dto : UpdateStudentDto) :
    (update db id dto).2 = db ∨ (update db id dto).2 = (updateCore db id dto).2 := by
  unfold update
  repeat' first | (left; rfl) | (right; rfl) | split | dsimp only

theorem update_enrollments_forall2 (db : DB) (id : String) (dto : UpdateStudentDto) :
    List.Forall₂ (UpdateEntryRel db id) db.enrollments (((update db id dto).2).enrollments) := by
  have hrefl : ∀ e, UpdateEntryRel db id e e := fun e => Or.inl rfl
  rcases update_db_cases db id dto with h | h
  · rw [h]
    exact List.forall₂_same.mpr (fun a _ => hrefl a)
  · rw [h]
    rcases updateCore_enrollments db id dto with h2 | ⟨cur, hf, h2⟩
    · rw [h2]
      exact List.forall₂_same.mpr (fun a _ => hrefl a)
    · rw [h2]
      apply updateFirstEnrollment_forall2 _ _ _ hrefl
      intro e hp
      simp only [Bool.and_eq_true, beq_iff_eq] at hp
      exact Or.inr ⟨rfl, rfl, rfl, hp.1, cur, hf, hp.2⟩

end DevLearningCircle

namespace DevLearningCircle

theorem promote_ok (db : DB) (s c sec y : String) (st' : Student) (db' : DB)
    (h : promote db s c sec y = (.ok st', db')) :
    ∃ st, findStudent db s = some st ∧
      st' = { st with classId := c, sectionId := sec, academicYearId := y } ∧
      enrollmentKeyFree db.enrollments
        { studentId := s, academicYearId := y, classId := c, sectionId := sec,
          rollNumber := st.rollNumber } = true ∧
      db' = { db with
        enrollments := db.enrollments ++
          [{ studentId := s, academicYearId := y, classId := c, sectionId := sec,
             rollNumber := st.rollNumber }],
        students := saveStudent db.students
          { st with classId := c, sectionId := sec, academicYearId := y } } := by
  unfold promote at h
  cases hf : findStudent db s with
  | none => simp [hf] at h
  | some st =>
    refine ⟨st, rfl, ?_⟩
    cases hc : assertIsCurrentAcademicYear db st.academicYearId with
    | error e => simp [hf, hc] at h
    | ok _ =>
      cases hn : assertNextAcademicYear db st.academicYearId y with
      | error e => simp [hf, hc, hn] at h
      | ok _ =>
        by_cases hdup : db.enrollments.any (fun e =>
            e.studentId == s && e.academicYearId == y) = true
        · simp [hf, hc, hn, hdup] at h
        · cases hins : insertEnrollment db.enrollments
              { studentId := s, academicYearId := y, classId := c, sectionId := sec,
                rollNumber := st.rollNumber } with
          | error e => simp [hf, hc, hn, hdup, hins] at h
          | ok l' =>
            rcases insertEnrollment_ok hins with ⟨hl', hfree⟩
            simp only [hf, hc, hn, hdup, hins, if_false, Bool.false_eq_true] at h
            rw [Prod.ext_iff] at h
            obtain ⟨h1, h2⟩ := h
            dsimp only at h1 h2
            refine ⟨(Except.ok.inj h1).symm, hfree, ?_⟩
            rw [← h2, hl']

end DevLearningCircle

namespace DevLearningCircle

theorem reAdmit_ok (db : DB) (s c sec y : String) (st' : Student) (db' : DB)
    (h : reAdmit db s c sec y = (.ok st', db')) :
    ∃ st cd sd, findStudent db s = some st ∧ findClass db c = some cd ∧
      findSection db sec = some sd ∧
      st' = { st with classId := c, sectionId := sec, academicYearId := y,
                      rollNumber := generateRollNumber db.enrollments cd.name sd.name y } ∧
      enrollmentKeyFree db.enrollments
        { studentId := s, academicYearId := y, classId := c, sectionId := sec,
          rollNumber := generateRollNumber db.enrollments cd.name sd.name y } = true ∧
      db' = { db with
        enrollments := db.enrollments ++
          [{ studentId := s, academicYearId := y, classId := c, sectionId := sec,
             rollNumber := generateRollNumber db.enrollments cd.name sd.name y }],
        students := saveStudent db.students
          { st with classId := c, sectionId := sec, academicYearId := y,
                    rollNumber := generateRollNumber db.enrollments cd.name sd.name y } } := by
  unfold reAdmit at h
  cases hf : findStudent db s with
  | none => simp [hf] at h
  | some st =>
    by_cases hdup : db.enrollments.any (fun e =>
        e.studentId == s && e.academicYearId == y) = true
    · simp [hf, hdup] at h
    · cases hcl : findClass db c with
      | none => simp [hf, hdup, hcl] at h
      | some cd =>
        cases hsec : findSection db sec with
        | none => simp [hf, hdup, hcl, hsec] at h
        | some sd =>
          refine ⟨st, cd, sd, rfl, rfl, rfl, ?_⟩
          cases hins : insertEnrollment db.enrollments
              { studentId := s, academicYearId := y, classId := c, sectionId := sec,
                rollNumber := generateRollNumber db.enrollments cd.name sd.name y } with
          | error e => simp [hf, hdup, hcl, hsec, hins] at h
          | ok l' =>
            rcases insertEnrollment_ok hins with ⟨hl', hfree⟩
            simp only [hf, hdup, hcl, hsec, hins, if_false, Bool.false_eq_true] at h
            rw [Prod.ext_iff] at h
            obtain ⟨h1, h2⟩ := h
            dsimp only at h1 h2
            refine ⟨(Except.ok.inj h1).symm, hfree, ?_⟩
            rw [← h2, hl']

end DevLearningCircle

namespace DevLearningCircle

theorem applySet_map_id (f : Student → Student) (sid : String)
    (hf : ∀ u : Student, u._id = sid → (f u)._id = sid) :
    ∀ l : List Student, (applySet f sid l).map (fun t => t._id) = l.map (fun t => t._id) := by
  intro l
  induction l with
  | nil => rfl
  | cons u us ih =>
    unfold applySet at *
    by_cases hu : u._id = sid
    · have hbeq : (u._id == sid) = true := by simp [hu]
      simp only [List.map_cons, hbeq, if_true, ih]
      rw [hf u hu, hu]
    · have hbeq : (u._id == sid) = false := by simp [hu]
      simp only [List.map_cons, hbeq, if_false, ih, Bool.false_eq_true]

theorem find?_applySet_of_ne (f : Student → Student) (sid tid : String)
    (hne : tid ≠ sid) (hf : ∀ u : Student, u._id = sid → (f u)._id = sid) :
    ∀ l : List Student,
      (applySet f sid l).find? (fun t => t._id == tid) = l.find? (fun t => t._id == tid) := by
  intro l
  induction l with
  | nil => rfl
  | cons u us ih =>
    unfold applySet at *
    by_cases hu : u._id = sid
    · have hbeq : (u._id == sid) = true := by simp [hu]
      have h1 : ((f u)._id == tid) = false := by
        simp only [beq_eq_false_iff_ne, ne_eq, hf u hu]
        exact fun hc => hne hc.symm
      have h2 : (u._id == tid) = false := by
        simp only [beq_eq_false_iff_ne, ne_eq, hu]
        exact fun hc => hne hc.symm
      simp only [List.map_cons, hbeq, if_true, List.find?_cons, h1, h2, ih,
        Bool.false_eq_true]
    · have hbeq : (u._id == sid) = false := by simp [hu]
      simp only [List.map_cons, hbeq, if_false, List.find?_cons, ih, Bool.false_eq_true]

theorem find?_applySet_of_eq (f : Student → Student) (sid : String)
    (hf : ∀ u : Student, u._id = sid → (f u)._id = sid) :
    ∀ (l : List Student) (t : Student),
      l.find? (fun u => u._id == sid) = some t →
      (applySet f sid l).find? (fun u => u._id == sid) = some (f t) := by
  intro l
  induction l with
  | nil => intro t h; cases h
  | cons u us ih =>
    intro t h
    unfold applySet at *
    by_cases hu : u._id = sid
    · have hbeq : (u._id == sid) = true := by simp [hu]
      have hfind : List.find? (fun v => v._id == sid) (u :: us) = some u := by
        simp [List.find?_cons, hbeq]
      rw [hfind] at h
      have ht : t = u := (Option.some.inj h).symm
      have hfbeq : ((f u)._id == sid) = true := by simp [hf u hu]
      rw [ht]
      simp only [List.map_cons, hbeq, if_true]
      exact List.find?_cons_of_pos _ hfbeq
    · have hbeq : (u._id == sid) = false := by simp [hu]
      have hfind : List.find? (fun v => v._id == sid) (u :: us) =
          List.find? (fun v => v._id == sid) us := by
        simp [List.find?_cons, hbeq]
      rw [hfind] at h
      simp only [List.map_cons, hbeq, if_false, Bool.false_eq_true]
      rw [List.find?_cons_of_neg _ (by simp [hbeq])]
      exact ih t h

end DevLearningCircle

namespace DevLearningCircle

theorem find?_of_mem_nodup (l : List Student) (s : Student)
    (hnd : (l.map (fun t => t._id)).Nodup) (hs : s ∈ l) :
    l.find? (fun t => t._id == s._id) = some s := by
  induction l with
  | nil => cases hs
  | cons u us ih =>
    rcases List.mem_cons.mp hs with hh | ht
    · rw [hh]
      exact List.find?_cons_of_pos _ (by simp)
    · have hne : u._id ≠ s._id := by
        intro hc
        have : u._id ∈ us.map (fun t => t._id) := hc ▸ List.mem_map_of_mem _ ht
        exact (List.nodup_cons.mp hnd).1 this
      rw [List.find?_cons_of_neg _ (by simp [hne])]
      exact ih (List.nodup_cons.mp hnd).2 ht

theorem find?_exists_of_mem_map (l : List Student) (id : String)
    (h : id ∈ l.map (fun t => t._id)) : ∃ t, l.find? (fun t => t._id == id) = some t := by
  induction l with
  | nil => cases h
  | cons u us ih =>
    by_cases hu : u._id = id
    · exact ⟨u, List.find?_cons_of_pos _ (by simp [hu])⟩
    · rcases List.mem_map.mp h with ⟨t, htm, hte⟩
      rcases List.mem_cons.mp htm with hh | ht
    

      · exact absurd (hh ▸ hte) hu
      · rcases ih (hte ▸ List.mem_map_of_mem _ ht) with ⟨t', ht'⟩
        exact ⟨t', by rw [List.find?_cons_of_neg _ (by simp [hu])]; exact ht'⟩

theorem mapExcept_ok_mem (f : α → Except Err β) :
    ∀ (l : List α) (bs : List β), mapExcept f l = .ok bs →
      ∀ b ∈ bs, ∃ a ∈ l, f a = .ok b := by
  intro l
  induction l with
  | nil =>
    intro bs h b hb
    unfold mapExcept at h
    rw [← Except.ok.inj h] at hb
    cases hb
  | cons a rest ih =>
    intro bs h b hb
    unfold mapExcept at h
    cases hfa : f a with
    | error e => rw [hfa] at h; cases h
    | ok b0 =>
      rw [hfa] at h
      cases hrest : mapExcept f rest with
      | error e => rw [hrest] at h; cases h
      | ok bs0 =>
        rw [hrest] at h
        rw [← Except.ok.inj h] at hb
        rcases List.mem_cons.mp hb with hh | ht
        · exact ⟨a, List.mem_cons_self a rest, hh ▸ hfa⟩
        · rcases ih bs0 hrest b ht with ⟨a', ha', hfa'⟩
          exact ⟨a', List.mem_cons_of_mem a ha', hfa'⟩

theorem mem_insertManyUnordered {e : Enrollment} :
    ∀ (docs l : List Enrollment), e ∈ insertManyUnordered l docs → e ∈ l ∨ e ∈ docs := by
  intro docs
  induction docs with
  | nil => intro l h; exact Or.inl (by simpa [insertManyUnordered] using h)
  | cons d ds ih =>
    intro l h
    rw [insertManyUnordered_cons] at h
    by_cases hk : enrollmentKeyFree l d
    · rw [if_pos hk] at h
      rcases ih (l ++ [d]) h with hl | hd
      · rcases List.mem_append.mp hl with h1 | h2
        · exact Or.inl h1
        · exact Or.inr (List.mem_cons.mpr (Or.inl (List.mem_singleton.mp h2)))
      · exact Or.inr (List.mem_cons_of_mem d hd)
    · rw [if_neg hk] at h
      rcases ih l h with hl | hd
      · exact Or.inl hl
      · exact Or.inr (List.mem_cons_of_mem d hd)

end DevLearningCircle

namespace DevLearningCircle

theorem applyStudentSet_fst_find_ne (sts : List Student) (sid tc ay sec tid : String)
    (hne : tid ≠ sid) :
    (applyStudentSet sts sid tc ay sec).1.find? (fun u => u._id == tid) =
      sts.find? (fun u => u._id == tid) := by
  unfold applyStudentSet
  cases hf : sts.find? (fun t => t._id == sid) with
  | none => rfl
  | some t =>
    dsimp only
    split
    · rfl
    · dsimp only
      exact find?_applySet_of_ne
        (fun u => { u with classId := tc, academicYearId := ay, sectionId := sec })
        sid tid hne (fun u hu => hu) sts

theorem applyStudentSet_fst_find_eq (sts : List Student) (sid tc ay sec : String)
    (t : Student) (hf : sts.find? (fun u => u._id == sid) = some t) :
    (applyStudentSet sts sid tc ay sec).1.find? (fun u => u._id == sid) =
      some { t with classId := tc, academicYearId := ay, sectionId := sec } := by
  unfold applyStudentSet
  rw [hf]
  dsimp only
  split
  · next heq =>
    rw [hf]
    have : { t with classId := tc, academicYearId := ay, sectionId := sec } = t :=
      beq_iff_eq.mp heq
    rw [this]
  · dsimp only
    exact find?_applySet_of_eq
      (fun u => { u with classId := tc, academicYearId := ay, sectionId := sec })
      sid (fun u hu => hu) sts t hf

theorem applyStudentSet_fst_map_id (sts : List Student) (sid tc ay sec : String) :
    (applyStudentSet sts sid tc ay sec).1.map (fun t => t._id) =
      sts.map (fun t => t._id) := by
  unfold applyStudentSet
  cases hf : sts.find? (fun t => t._id == sid) with
  | none => rfl
  | some t =>
    dsimp only
    split
    · rfl
    · dsimp only
      exact applySet_map_id
        (fun u => { u with classId := tc, academicYearId := ay, sectionId := sec })
        sid (fun u hu => hu) sts

theorem applyPromoteSets_fst (students : List Student) (docs : List Enrollment) :
    (applyPromoteSets students docs).1 =
      docs.foldl (fun sts d => (applyStudentSet sts d.studentId d.classId d.academicYearId d.sectionId).1) students := by
  suffices h : ∀ (docs : List Enrollment) (sts : List Student) (n : Nat),
      (docs.foldl (fun acc d =>
        let r := applyStudentSet acc.1 d.studentId d.classId d.academicYearId d.sectionId
        (r.1, acc.2 + r.2)) (sts, n)).1 =
      docs.foldl (fun sts d => (applyStudentSet sts d.studentId d.classId d.academicYearId d.sectionId).1) sts by
    exact h docs students 0
  intro docs
  induction docs with
  | nil => intro sts n; rfl
  | cons d ds ih => intro sts n; simp only [List.foldl_cons]; exact ih _ _

theorem foldl_applyStudentSet_find_ne (tid : String) :
    ∀ (docs : List Enrollment) (sts : List Student),
      tid ∉ docs.map (fun d => d.studentId) →
      (docs.foldl (fun sts d =>
        (applyStudentSet sts d.studentId d.classId d.academicYearId d.sectionId).1) sts).find?
          (fun u => u._id == tid) =
        sts.find? (fun u => u._id == tid) := by
  intro docs
  induction docs with
  | nil => intro sts _; rfl
  | cons d ds ih =>
    intro sts h
    simp only [List.map_cons, List.mem_cons, not_or] at h
    simp only [List.foldl_cons]
    rw [ih _ (by simpa using h.2)]
    exact applyStudentSet_fst_find_ne sts _ _ _ _ tid h.1

theorem applyPromoteSets_find (docs : List Enrollment) :
    ∀ (students : List Student) (d : Enrollment) (t : Student),
      d ∈ docs → (docs.map (fun x => x.studentId)).Nodup →
      students.find? (fun u => u._id == d.studentId) = some t →
      (applyPromoteSets students docs).1.find? (fun u => u._id == d.studentId) =
        some { t with classId := d.classId, academicYearId := d.academicYearId,
                      sectionId := d.sectionId } := by
  induction docs with
  | nil => intro students d t hd; cases hd
  | cons d0 ds ih =>
    intro students d t hd hnd hf
    rw [applyPromoteSets_fst]
    simp only [List.foldl_cons]
    rcases List.mem_cons.mp hd with hh | hds
    · subst hh
      have hid : d.studentId ∉ ds.map (fun x => x.studentId) :=
        (List.nodup_cons.mp hnd).1
      rw [foldl_applyStudentSet_find_ne _ ds _ hid]
      exact applyStudentSet_fst_find_eq students _ _ _ _ t hf
    · have hne : d.studentId ≠ d0.studentId := by
        intro hc
        apply (List.nodup_cons.mp hnd).1
        show d0.studentId ∈ ds.map (fun x => x.studentId)
        rw [← hc]
        exact List.mem_map_of_mem _ hds
      have hf1 : (applyStudentSet students d0.studentId d0.classId d0.academicYearId
          d0.sectionId).1.find? (fun u => u._id == d.studentId) = some t := by
        rw [applyStudentSet_fst_find_ne _ _ _ _ _ _ hne]
        exact hf
      have := ih (applyStudentSet students d0.studentId d0.classId d0.academicYearId d0.sectionId).1
        d t hds (List.nodup_cons.mp hnd).2 hf1
      rw [applyPromoteSets_fst] at this
      exact this

end DevLearningCircle

namespace DevLearningCircle

/-- The snapshot/ledger agreement predicate of claim C1. -/
def snapshotMatches (st : Student) (e : Enrollment) : Prop :=
  st.classId = e.classId ∧ st.sectionId = e.sectionId ∧
  st.academicYearId = e.academicYearId ∧ st.rollNumber = e.rollNumber

theorem promoteDocBuilder_ok (dto : PromoteBulkDto) (sm : Option (List (String × String)))
    (tc : String) (s : Student) (b : Enrollment)
    (h : promoteDocBuilder dto sm tc s = .ok b) :
    b.studentId = s._id ∧ b.academicYearId = dto.toAcademicYearId ∧
    b.classId = tc ∧ b.rollNumber = s.rollNumber := by
  unfold promoteDocBuilder at h
  cases hg : getTargetSectionId dto.targetSectionId sm s.sectionId with
  | error e => rw [hg] at h; cases h
  | ok sec =>
    rw [hg] at h
    rw [← Except.ok.inj h]
    exact ⟨rfl, rfl, rfl, rfl⟩

theorem mapExcept_docs_ids (dto : PromoteBulkDto) (sm : Option (List (String × String)))
    (tc : String) :
    ∀ (l : List Student) (docs : List Enrollment),
      mapExcept (promoteDocBuilder dto sm tc) l = .ok docs →
      docs.map (fun d => d.studentId) = l.map (fun s => s._id) := by
  intro l
  induction l with
  | nil =>
    intro docs h
    unfold mapExcept at h
    rw [← Except.ok.inj h]
    rfl
  | cons s ss ih =>
    intro docs h
    unfold mapExcept at h
    cases hfs : promoteDocBuilder dto sm tc s with
    | error e => rw [hfs] at h; cases h
    | ok b =>
      rw [hfs] at h
      cases hrest : mapExcept (promoteDocBuilder dto sm tc) ss with
      | error e => rw [hrest] at h; cases h
      | ok bs =>
        rw [hrest] at h
        rw [← Except.ok.inj h]
        simp only [List.map_cons]
        rw [(promoteDocBuilder_ok dto sm tc s b hfs).1, ih bs hrest]

theorem promoteBulk_ok (db : DB) (dto : PromoteBulkDto) (hd : Option String)
    (r : PromoteBulkResult) (db' : DB) (h : promoteBulk db dto hd = (.ok r, db')) :
    db' = db ∨
    ∃ fromAY tc docs,
      mapExcept (promoteDocBuilder dto
          (promoteSectionMapping db dto (selectPromoteCandidates db dto fromAY) tc) tc)
        (selectPromoteCandidates db dto fromAY) = .ok docs ∧
      db' = { db with
        enrollments := insertManyUnordered db.enrollments docs,
        students := (applyPromoteSets db.students docs).1 } := by
  unfold promoteBulk at h
  cases hay : jsOpt (jsOrString dto.fromAcademicYearId hd) with
  | none => simp only [hay] at h; cases h
  | some fromAY =>
    simp only [hay] at h
    cases hc : assertIsCurrentAcademicYear db fromAY with
    | error e => simp only [hc] at h; cases h
    | ok _ =>
      simp only [hc] at h
      by_cases hempty : (selectPromoteCandidates db dto fromAY).isEmpty = true
      · rw [if_pos hempty] at h
        rw [Prod.ext_iff] at h
        exact Or.inl h.2.symm
      · rw [if_neg hempty] at h
        cases hn : assertNextAcademicYear db fromAY dto.toAcademicYearId with
        | error e => simp only [hn] at h; cases h
        | ok _ =>
          simp only [hn] at h
          cases hrc : resolveTargetClassId db dto with
          | error e => simp only [hrc] at h; cases h
          | ok tc =>
            simp only [hrc] at h
            cases hmap : mapExcept
                (promoteDocBuilder dto
                  (promoteSectionMapping db dto (selectPromoteCandidates db dto fromAY) tc) tc)
                (selectPromoteCandidates db dto fromAY) with
            | error e => simp only [hmap] at h; cases h
            | ok docs =>
              simp only [hmap] at h
              rw [Prod.ext_iff] at h
              exact Or.inr ⟨fromAY, tc, docs, hmap, h.2.symm⟩

end DevLearningCircle

namespace DevLearningCircle

theorem promoteBulk_snapshot_ledger (db : DB) (dto : PromoteBulkDto) (hd : Option String)
    (r : PromoteBulkResult) (db' : DB)
    (h : promoteBulk db dto hd = (.ok r, db'))
    (hnd : (db.students.map (fun t => t._id)).Nodup) :
    ∀ e ∈ db'.enrollments, e ∉ db.enrollments →
      ∃ st', findStudent db' e.studentId = some st' ∧ snapshotMatches st' e := by
  intro e he hnew
  rcases promoteBulk_ok db dto hd r db' h with hdb | ⟨fromAY, tc, docs, hmap, hdb⟩
  · rw [hdb] at he; exact absurd he hnew
  · subst hdb
    have he' : e ∈ insertManyUnordered db.enrollments docs := he
    rcases mem_insertManyUnordered docs db.enrollments he' with h1 | h2
    · exact absurd h1 hnew
    · rcases mapExcept_ok_mem _ _ _ hmap e h2 with ⟨s, hs, hbuilt⟩
      rcases promoteDocBuilder_ok _ _ _ _ _ hbuilt with ⟨hid, hay2, hcls, hroll⟩
      have hsmem : s ∈ db.students := by
        unfold selectPromoteCandidates at hs
        exact List.mem_of_mem_filter hs
      have hfind : db.students.find? (fun u => u._id == s._id) = some s :=
        find?_of_mem_nodup _ _ hnd hsmem
      have hdocsids : docs.map (fun d => d.studentId) =
          (selectPromoteCandidates db dto fromAY).map (fun s => s._id) :=
        mapExcept_docs_ids _ _ _ _ _ hmap
      have hdocnd : (docs.map (fun d => d.studentId)).Nodup := by
        rw [hdocsids]
        unfold selectPromoteCandidates
        exact hnd.sublist ((List.filter_sublist _).map _)
      have hfind2 : db.students.find? (fun u => u._id == e.studentId) = some s := by
        rw [hid]; exact hfind
      have hres := applyPromoteSets_find docs db.students e s h2 hdocnd hfind2
      refine ⟨{ s with
        classId := e.classId, academicYearId := e.academicYearId,
        sectionId := e.sectionId }, ?_, ?_⟩
      · exact hres
      · exact ⟨rfl, rfl, rfl, hroll.symm⟩

end DevLearningCircle

namespace DevLearningCircle

/-- The in-transaction snapshot/ledger agreement invariant of the
`reAdmitBulk` loop: every ledger row the transaction has inserted has a
matching student snapshot in the transaction's student state. -/
def LoopInv (db₀ : DB) (L : List Enrollment) (S : List Student) : Prop :=
  ∀ e ∈ L, e ∉ db₀.enrollments →
    ∃ st', S.find? (fun u => u._id == e.studentId) = some st' ∧ snapshotMatches st' e

theorem reAdmitLoop_inv (db₀ : DB) (cid sid ay cn sn : String) :
    ∀ (rem : List Student) (st : ReAdmitLoopState),
      st.students.map (fun t => t._id) = db₀.students.map (fun t => t._id) →
      (rem.map (fun t => t._id)).Nodup →
      (∀ s ∈ rem, s._id ∈ db₀.students.map (fun t => t._id)) →
      (∀ s ∈ rem, ∀ e ∈ st.enrollments, e ∉ db₀.enrollments → e.studentId ≠ s._id) →
      LoopInv db₀ st.enrollments st.students →
      LoopInv db₀ (rem.foldl (reAdmitStep db₀ cid sid ay cn sn) st).enrollments
        (rem.foldl (reAdmitStep db₀ cid sid ay cn sn) st).students := by
  intro rem
  induction rem with
  | nil => intro st _ _ _ _ hinv; exact hinv
  | cons s ss ih =>
    intro st hids hnd hmem hdisj hinv
    rw [List.foldl_cons]
    by_cases hdup : db₀.enrollments.any (fun e =>
        e.studentId == s._id && e.academicYearId == ay) = true
    · have hstep : reAdmitStep db₀ cid sid ay cn sn st s = { st with errors := st.errors ++
          [{ studentId := s._id, name := s.name, error := "Already enrolled for this year" }] } := by
        unfold reAdmitStep
        rw [if_pos hdup]
      rw [hstep]
      exact ih _ hids (List.nodup_cons.mp hnd).2
        (fun s' hs' => hmem s' (List.mem_cons_of_mem s hs'))
        (fun s' hs' => hdisj s' (List.mem_cons_of_mem s hs'))
        hinv
    · cases hins : insertEnrollment st.enrollments
          { studentId := s._id, academicYearId := ay, classId := cid, sectionId := sid,
            rollNumber := generateRollNumber db₀.enrollments cn sn ay } with
      | error err =>
        have hstep : reAdmitStep db₀ cid sid ay cn sn st s = { st with errors := st.errors ++
            [{ studentId := s._id, name := s.name, error := err.message }] } := by
          unfold reAdmitStep
          rw [if_neg hdup]
          dsimp only
          rw [hins]
        rw [hstep]
        exact ih _ hids (List.nodup_cons.mp hnd).2
          (fun s' hs' => hmem s' (List.mem_cons_of_mem s hs'))
          (fun s' hs' => hdisj s' (List.mem_cons_of_mem s hs'))
          hinv
      | ok l' =>
        have hl' := (insertEnrollment_ok hins).1
        have hstep : reAdmitStep db₀ cid sid ay cn sn st s =
            { enrollments := l',
              students := applySet (fun t =>
                  { t with classId := cid, sectionId := sid, academicYearId := ay,
                           rollNumber := generateRollNumber db₀.enrollments cn sn ay })
                s._id st.students,
              successCount := st.successCount + 1,
              errors := st.errors } := by
          unfold reAdmitStep
          rw [if_neg hdup]
          dsimp only
          rw [hins]
        rw [hstep]
        have hids1 : (applySet (fun t =>
            { t with classId := cid, sectionId := sid, academicYearId := ay,
                     rollNumber := generateRollNumber db₀.enrollments cn sn ay })
            s._id st.students).map (fun t => t._id) =
            db₀.students.map (fun t => t._id) := by
          rw [applySet_map_id (fun t =>
              { t with classId := cid, sectionId := sid, academicYearId := ay,
                       rollNumber := generateRollNumber db₀.enrollments cn sn ay })
            s._id (fun u hu => hu)]
          exact hids
        apply ih _ hids1 (List.nodup_cons.mp hnd).2
          (fun s' hs' => hmem s' (List.mem_cons_of_mem s hs'))
        · -- disjointness for the remaining students
          intro s' hs' e he hnewe
          rw [hl'] at he
          rcases List.mem_append.mp he with h1 | h2
          · exact hdisj s' (List.mem_cons_of_mem s hs') e h1 hnewe
          · rw [List.mem_singleton.mp h2]
            intro hc
            have hc' : s._id = s'._id := hc
            have hsid : s._id ∈ ss.map (fun t => t._id) := by
              rw [hc']
              exact List.mem_map_of_mem (fun t => t._id) hs'
            exact (List.nodup_cons.mp hnd).1 hsid
        · -- invariant after this step
          intro e he hnewe
          rw [hl'] at he
          rcases List.mem_append.mp he with h1 | h2
          · rcases hinv e h1 hnewe with ⟨st', hfind, hmatch⟩
            refine ⟨st', ?_, hmatch⟩
            rw [find?_applySet_of_ne (fun t =>
                { t with classId := cid, sectionId := sid, academicYearId := ay,
                         rollNumber := generateRollNumber db₀.enrollments cn sn ay })
              s._id e.studentId
              (hdisj s (List.mem_cons_self s ss) e h1 hnewe) (fun u hu => hu)]
            exact hfind
          · rw [List.mem_singleton.mp h2]
            have hsin : s._id ∈ st.students.map (fun t => t._id) := by
              rw [hids]
              exact hmem s (List.mem_cons_self s ss)
            rcases find?_exists_of_mem_map st.students s._id hsin with ⟨t, ht⟩
            refine ⟨{ t with
              classId := cid, sectionId := sid, academicYearId := ay,
              rollNumber := generateRollNumber db₀.enrollments cn sn ay }, ?_, ?_⟩
            · exact find?_applySet_of_eq (fun t =>
                  { t with classId := cid, sectionId := sid, academicYearId := ay,
                           rollNumber := generateRollNumber db₀.enrollments cn sn ay })
                s._id (fun u hu => hu) st.students t ht
            · exact ⟨rfl, rfl, rfl, rfl⟩

end DevLearningCircle

namespace DevLearningCircle

theorem reAdmitBulk_ok (db : DB) (sids : List String) (c sec y : String)
    (r : ReAdmitBulkResult) (db' : DB) (h : reAdmitBulk db sids c sec y = (.ok r, db')) :
    ∃ cd sd, findClass db c = some cd ∧ findSection db sec = some sd ∧
      db' = { db with
        enrollments := ((db.students.filter (fun s => sids.contains s._id)).foldl
          (reAdmitStep db c sec y cd.name sd.name)
          { enrollments := db.enrollments, students := db.students,
            successCount := 0, errors := [] }).enrollments,
        students := ((db.students.filter (fun s => sids.contains s._id)).foldl
          (reAdmitStep db c sec y cd.name sd.name)
          { enrollments := db.enrollments, students := db.students,
            successCount := 0, errors := [] }).students } := by
  unfold reAdmitBulk at h
  by_cases hemp : sids.isEmpty = true
  · rw [if_pos hemp] at h; cases h
  · rw [if_neg hemp] at h
    cases hcl : findClass db c with
    | none => simp only [hcl] at h; cases h
    | some cd =>
      simp only [hcl] at h
      cases hsec : findSection db sec with
      | none => simp only [hsec] at h; cases h
      | some sd =>
        simp only [hsec] at h
        by_cases hse : (db.students.filter (fun s => sids.contains s._id)).isEmpty = true
        · rw [if_pos hse] at h; cases h
        · rw [if_neg hse] at h
          rw [Prod.ext_iff] at h
          exact ⟨cd, sd, rfl, rfl, h.2.symm⟩

theorem reAdmitBulk_snapshot_ledger (db : DB) (sids : List String) (c sec y : String)
    (r : ReAdmitBulkResult) (db' : DB)
    (h : reAdmitBulk db sids c sec y = (.ok r, db'))
    (hnd : (db.students.map (fun t => t._id)).Nodup) :
    ∀ e ∈ db'.enrollments, e ∉ db.enrollments →
      ∃ st', findStudent db' e.studentId = some st' ∧ snapshotMatches st' e := by
  rcases reAdmitBulk_ok db sids c sec y r db' h with ⟨cd, sd, hcl, hsec, hdb⟩
  subst hdb
  intro e he hnew
  have hinv := reAdmitLoop_inv db c sec y cd.name sd.name
    (db.students.filter (fun s => sids.contains s._id))
    { enrollments := db.enrollments, students := db.students,
      successCount := 0, errors := [] }
    rfl
    (hnd.sublist ((List.filter_sublist _).map _))
    (fun s hs => List.mem_map_of_mem _ (List.mem_of_mem_filter hs))
    (fun s hs e' he' hn' => absurd he' hn')
    (fun e' he' hn' => absurd he' hn')
  exact hinv e he hnew

end DevLearningCircle

namespace DevLearningCircle

theorem promote_snapshot_ledger (db : DB) (s c sec y : String) (st' : Student) (db' : DB)
    (h : promote db s c sec y = (.ok st', db')) :
    ∃ e, db'.enrollments = db.enrollments ++ [e] ∧ e.studentId = s ∧ e.academicYearId = y ∧
      findStudent db' s = some st' ∧ snapshotMatches st' e := by
  rcases promote_ok db s c sec y st' db' h with ⟨st, hf, hst', hfree, hdb⟩
  subst hst'
  subst hdb
  have hsid : st._id = s := by simpa using List.find?_some hf
  refine ⟨{ studentId := s, academicYearId := y, classId := c, sectionId := sec,
            rollNumber := st.rollNumber }, rfl, rfl, rfl, ?_, ⟨rfl, rfl, rfl, rfl⟩⟩
  rw [← hsid] at hf ⊢
  exact find?_applySet_of_eq
    (fun _ => ({ st with classId := c, sectionId := sec, academicYearId := y } : Student))
    st._id (fun u hu => rfl) db.students st hf

theorem reAdmit_snapshot_ledger (db : DB) (s c sec y : String) (st' : Student) (db' : DB)
    (h : reAdmit db s c sec y = (.ok st', db')) :
    ∃ e, db'.enrollments = db.enrollments ++ [e] ∧ e.studentId = s ∧ e.academicYearId = y ∧
      findStudent db' s = some st' ∧ snapshotMatches st' e := by
  rcases reAdmit_ok db s c sec y st' db' h with ⟨st, cd, sd, hf, hcl, hsec, hst', hfree, hdb⟩
  subst hst'
  subst hdb
  have hsid : st._id = s := by simpa using List.find?_some hf
  refine ⟨{ studentId := s, academicYearId := y, classId := c, sectionId := sec,
            rollNumber := generateRollNumber db.enrollments cd.name sd.name y },
    rfl, rfl, rfl, ?_, ⟨rfl, rfl, rfl, rfl⟩⟩
  rw [← hsid] at hf ⊢
  exact find?_applySet_of_eq
    (fun _ => ({ st with
      classId := c, sectionId := sec, academicYearId := y,
      rollNumber := generateRollNumber db.enrollments cd.name sd.name y } : Student))
    st._id (fun u hu => rfl) db.students st hf

theorem promote_roll_carry (db : DB) (s c sec y : String) (st0 st' : Student) (db' : DB)
    (hf : findStudent db s = some st0) (h : promote db s c sec y = (.ok st', db')) :
    db'.enrollments = db.enrollments ++
      [{ studentId := s, academicYearId := y, classId := c, sectionId := sec,
         rollNumber := st0.rollNumber }] ∧
    st'.rollNumber = st0.rollNumber := by
  rcases promote_ok db s c sec y st' db' h with ⟨st, hf2, hst', hfree, hdb⟩
  have hst0 : st = st0 := Option.some.inj (hf2.symm.trans hf)
  subst hst0
  subst hst'
  subst hdb
  exact ⟨rfl, rfl⟩

theorem reAdmit_roll_fresh (db : DB) (s c sec y : String) (cd : SchoolClass)
    (sd : SchoolSection) (st' : Student) (db' : DB)
    (hcl : findClass db c = some cd) (hsec : findSection db sec = some sd)
    (h : reAdmit db s c sec y = (.ok st', db')) :
    db'.enrollments = db.enrollments ++
      [{ studentId := s, academicYearId := y, classId := c, sectionId := sec,
         rollNumber := generateRollNumber db.enrollments cd.name sd.name y }] ∧
    st'.rollNumber = generateRollNumber db.enrollments cd.name sd.name y := by
  rcases reAdmit_ok db s c sec y st' db' h with ⟨st, cd2, sd2, hf2, hcl2, hsec2, hst', hfree, hdb⟩
  have hcd : cd2 = cd := Option.some.inj (hcl2.symm.trans hcl)
  have hsd : sd2 = sd := Option.some.inj (hsec2.symm.trans hsec)
  subst hcd
  subst hsd
  subst hst'
  subst hdb
  exact ⟨rfl, rfl⟩

end DevLearningCircle

namespace DevLearningCircle

/-- Claim C10: when the candidate filter of `promoteBulk` matches no
student, the call returns a success-shaped `{selected, matched: 0,
modified: 0}` result and the unchanged database, without running the
target-year sequence validation, class/section resolution, or any
write — no matter what `toAcademicYearId` was supplied. -/
theorem C10_empty_filter_early_return (db : DB) (dto : PromoteBulkDto) (headerAY : Option String)
    (fromAY : String)
    (h0 : jsOpt (jsOrString dto.fromAcademicYearId headerAY) = some fromAY)
    (h1 : assertIsCurrentAcademicYear db fromAY = .ok ())
    (h2 : selectPromoteCandidates db dto fromAY = []) :
    promoteBulk db dto headerAY =
      (.ok { selected := (dto.studentIds.map List.length).getD 0, matched := 0, modified := 0,
             toAcademicYearId := none, targetClassId := none, targetSectionId := none }, db) := by
  unfold promoteBulk
  simp only [h0, h1, h2]
  rfl

theorem getTargetSectionId_error_inv (tso : Option String)
    (sm : Option (List (String × String))) (cs : String) (e : Err)
    (h : getTargetSectionId tso sm cs = .error e) :
    ∃ m, sm = some m ∧ jsTruthy cs = true ∧ m.lookup cs = none ∧
      e = .badRequest (noMatchingSectionMsg cs) := by
  unfold getTargetSectionId at h
  cases hj : jsOpt tso with
  | some t => simp only [hj] at h; cases h
  | none =>
    simp only [hj] at h
    cases hsm : sm with
    | none => simp only [hsm] at h; cases h
    | some m =>
      simp only [hsm] at h
      by_cases htr : jsTruthy cs = true
      · rw [if_pos htr] at h
        cases hlk : m.lookup cs with
        | some v => simp only [hlk] at h; cases h
        | none =>
          simp only [hlk] at h
          exact ⟨m, rfl, htr, hlk, (Except.error.inj h).symm⟩
      · rw [if_neg htr] at h
        cases h

theorem mapExcept_error_first (f : α → Except Err β) :
    ∀ (l : List α) (a : α), a ∈ l → (∃ e0, f a = .error e0) →
      ∃ a', a' ∈ l ∧ ∃ e, f a' = .error e ∧ mapExcept f l = .error e := by
  intro l
  induction l with
  | nil => intro a ha; cases ha
  | cons x xs ih =>
    intro a ha he
    cases hfx : f x with
    | error e1 =>
      exact ⟨x, List.mem_cons_self x xs, e1, hfx, by unfold mapExcept; rw [hfx]⟩
    | ok b =>
      rcases List.mem_cons.mp ha with hax | hatl
      · rcases he with ⟨e0, he0⟩
        rw [hax] at he0
        rw [he0] at hfx
        cases hfx
      · rcases ih a hatl he with ⟨a', ha', e, hfe, hmap⟩
        refine ⟨a', List.mem_cons_of_mem x ha', e, hfe, ?_⟩
        unfold mapExcept
        rw [hfx, hmap]

/-- Claim C6: in a bulk promotion without an explicit `targetSectionId`,
if some candidate's source section has no equivalently named section in
the target class, `promoteBulk` fails with a ValidationError citing an
unmapped source section id and leaves the database unchanged (the whole
transaction aborts; no student is updated). -/
theorem C6_unmapped_section_abort (db : DB) (dto : PromoteBulkDto) (headerAY : Option String)
    (fromAY tc : String) (s : Student) (m : List (String × String))
    (h0 : jsOpt (jsOrString dto.fromAcademicYearId headerAY) = some fromAY)
    (h1 : assertIsCurrentAcademicYear db fromAY = .ok ())
    (h2 : ¬ (selectPromoteCandidates db dto fromAY).isEmpty = true)
    (h3 : assertNextAcademicYear db fromAY dto.toAcademicYearId = .ok ())
    (h4 : resolveTargetClassId db dto = .ok tc)
    (h5 : promoteSectionMapping db dto (selectPromoteCandidates db dto fromAY) tc = some m)
    (hs : s ∈ selectPromoteCandidates db dto fromAY)
    (hstruthy : jsTruthy s.sectionId = true)
    (hunmapped : m.lookup s.sectionId = none) :
    ∃ s', s' ∈ selectPromoteCandidates db dto fromAY ∧ jsTruthy s'.sectionId = true ∧
      m.lookup s'.sectionId = none ∧
      promoteBulk db dto headerAY =
        (.error (.badRequest (noMatchingSectionMsg s'.sectionId)), db) := by
  have hjs : jsOpt dto.targetSectionId = none := by
    unfold promoteSectionMapping at h5
    cases hj : jsOpt dto.targetSectionId with
    | none => rfl
    | some t => rw [hj] at h5; cases h5
  have hfails : ∃ e0, promoteDocBuilder dto (some m) tc s = .error e0 := by
    refine ⟨.badRequest (noMatchingSectionMsg s.sectionId), ?_⟩
    unfold promoteDocBuilder getTargetSectionId
    rw [hjs]
    simp only [hstruthy, if_true, hunmapped]
    rfl
  rcases mapExcept_error_first (promoteDocBuilder dto (some m) tc)
      (selectPromoteCandidates db dto fromAY) s hs hfails with ⟨s', hs', e, hfe, hmap⟩
  rcases getTargetSectionId_error_inv dto.targetSectionId (some m) s'.sectionId e
      (by
        unfold promoteDocBuilder at hfe
        cases hg : getTargetSectionId dto.targetSectionId (some m) s'.sectionId with
        | error e2 =>
          simp only [hg, Except.map] at hfe
          injection hfe with hh
          rw [hh]
        | ok v =>
          simp only [hg, Except.map] at hfe
          cases hfe) with ⟨m2, hm2, htr', hlk', hemsg⟩
  refine ⟨s', hs', htr', (Option.some.inj hm2) ▸ hlk', ?_⟩
  unfold promoteBulk
  simp only [h0, h1]
  rw [if_neg h2]
  simp only [h3, h4, h5, hmap, hemsg]

end DevLearningCircle

namespace DevLearningCircle

/-- The ledger invariant enforced by the unique index
`(academicYearId, rollNumber)`: no two ledger entries share a roll
number within the same year. -/
def RollsUnique (l : List Enrollment) : Prop :=
  l.Pairwise (fun a b => ¬(a.academicYearId = b.academicYearId ∧ a.rollNumber = b.rollNumber))

theorem keyFree_rolls (l : List Enrollment) (e : Enrollment)
    (h : enrollmentKeyFree l e = true) :
    ∀ f ∈ l, ¬(f.academicYearId = e.academicYearId ∧ f.rollNumber = e.rollNumber) := by
  intro f hf hcon
  have hb := List.all_eq_true.mp h f hf
  simp [hcon.1, hcon.2] at hb

theorem rollsUnique_insert {l l' : List Enrollment} {e : Enrollment}
    (h : RollsUnique l) (hins : insertEnrollment l e = .ok l') : RollsUnique l' := by
  rcases insertEnrollment_ok hins with ⟨hl', hfree⟩
  subst hl'
  rw [RollsUnique, List.pairwise_append]
  exact ⟨h, List.pairwise_singleton _ _,
    fun a ha b hb => by rw [List.mem_singleton.mp hb]; exact keyFree_rolls l e hfree a ha⟩

theorem rollsUnique_insertMany (docs : List Enrollment) :
    ∀ l, RollsUnique l → RollsUnique (insertManyUnordered l docs) := by
  induction docs with
  | nil => intro l h; simpa [insertManyUnordered] using h
  | cons d ds ih =>
    intro l h
    rw [insertManyUnordered_cons]
    by_cases hk : enrollmentKeyFree l d
    · refine ih _ ?_
      rw [if_pos hk]
      rw [RollsUnique, List.pairwise_append]
      exact ⟨h, List.pairwise_singleton _ _,
        fun a ha b hb => by rw [List.mem_singleton.mp hb]; exact keyFree_rolls l d hk a ha⟩
    · refine ih _ ?_
      rw [if_neg hk]
      exact h

theorem mem_updateFirstEnrollment (p : Enrollment → Bool) (f : Enrollment → Enrollment) :
    ∀ (l : List Enrollment) (b : Enrollment), b ∈ updateFirstEnrollment p f l →
      ∃ b0 ∈ l, b = b0 ∨ b = f b0 := by
  intro l
  induction l with
  | nil => intro b hb; cases hb
  | cons e es ih =>
    intro b hb
    unfold updateFirstEnrollment at hb
    by_cases hp : p e = true
    · rw [if_pos hp] at hb
      rcases List.mem_cons.mp hb with hh | ht
      · exact ⟨e, List.mem_cons_self e es, Or.inr hh⟩
      · exact ⟨b, List.mem_cons_of_mem e ht, Or.inl rfl⟩
    · rw [if_neg hp] at hb
      rcases List.mem_cons.mp hb with hh | ht
      · exact ⟨e, List.mem_cons_self e es, Or.inl hh⟩
      · rcases ih b ht with ⟨b0, hb0, hor⟩
        exact ⟨b0, List.mem_cons_of_mem e hb0, hor⟩

theorem rollsUnique_updateFirst (p : Enrollment → Bool) (f : Enrollment → Enrollment)
    (hkeep : ∀ e, (f e).academicYearId = e.academicYearId ∧ (f e).rollNumber = e.rollNumber) :
    ∀ l, RollsUnique l → RollsUnique (updateFirstEnrollment p f l) := by
  intro l
  induction l with
  | nil => intro h; exact h
  | cons e es ih =>
    intro h
    rcases List.pairwise_cons.mp h with ⟨hhead, htail⟩
    unfold updateFirstEnrollment
    by_cases hp : p e = true
    · rw [if_pos hp]
      refine List.pairwise_cons.mpr ⟨?_, htail⟩
      intro b hb hcon
      exact hhead b hb ⟨(hkeep e).1 ▸ hcon.1, (hkeep e).2 ▸ hcon.2⟩
    · rw [if_neg hp]
      refine List.pairwise_cons.mpr ⟨?_, ih htail⟩
      intro b hb hcon
      rcases mem_updateFirstEnrollment p f es b hb with ⟨b0, hb0, hor⟩
      rcases hor with hb0e | hb0f
      · exact hhead b0 hb0 (hb0e ▸ hcon)
      · refine hhead b0 hb0 ?_
        rw [hb0f] at hcon
        exact ⟨((hkeep b0).1) ▸ hcon.1, ((hkeep b0).2) ▸ hcon.2⟩

end DevLearningCircle

namespace DevLearningCircle

theorem promote_rollsUnique (db : DB) (s c sec y : String)
    (h : RollsUnique db.enrollments) :
    RollsUnique ((promote db s c sec y).2).enrollments := by
  unfold promote
  cases hf : findStudent db s with
  | none => simpa [hf] using h
  | some st =>
    cases hc : assertIsCurrentAcademicYear db st.academicYearId with
    | error e => simpa [hf, hc] using h
    | ok _ =>
      cases hn : assertNextAcademicYear db st.academicYearId y with
      | error e => simpa [hf, hc, hn] using h
      | ok _ =>
        by_cases hdup : db.enrollments.any (fun e =>
            e.studentId == s && e.academicYearId == y) = true
        · simpa [hf, hc, hn, hdup] using h
        · cases hins : insertEnrollment db.enrollments
              { studentId := s, academicYearId := y, classId := c, sectionId := sec,
                rollNumber := st.rollNumber } with
          | error e => simpa [hf, hc, hn, hdup, hins] using h
          | ok l' => simpa [hf, hc, hn, hdup, hins] using rollsUnique_insert h hins

theorem reAdmit_rollsUnique (db : DB) (s c sec y : String)
    (h : RollsUnique db.enrollments) :
    RollsUnique ((reAdmit db s c sec y).2).enrollments := by
  unfold reAdmit
  cases hf : findStudent db s with
  | none => simpa [hf] using h
  | some st =>
    by_cases hdup : db.enrollments.any (fun e =>
        e.studentId == s && e.academicYearId == y) = true
    · simpa [hf, hdup] using h
    · cases hcl : findClass db c with
      | none => simpa [hf, hdup, hcl] using h
      | some cd =>
        cases hsec : findSection db sec with
        | none => simpa [hf, hdup, hcl, hsec] using h
        | some sd =>
          cases hins : insertEnrollment db.enrollments
              { studentId := s, academicYearId := y, classId := c, sectionId := sec,
                rollNumber := generateRollNumber db.enrollments cd.name sd.name y } with
          | error e => simpa [hf, hdup, hcl, hsec, hins] using h
          | ok l' => simpa [hf, hdup, hcl, hsec, hins] using rollsUnique_insert h hins

theorem promoteBulk_rollsUnique (db : DB) (dto : PromoteBulkDto) (hd : Option String)
    (h : RollsUnique db.enrollments) :
    RollsUnique ((promoteBulk db dto hd).2).enrollments := by
  unfold promoteBulk
  cases hay : jsOpt (jsOrString dto.fromAcademicYearId hd) with
  | none => simpa [hay] using h
  | some fromAY =>
    cases hc : assertIsCurrentAcademicYear db fromAY with
    | error e => simpa [hay, hc] using h
    | ok _ =>
      by_cases hempty : (selectPromoteCandidates db dto fromAY).isEmpty = true
      · simpa [hay, hc, hempty] using h
      · cases hn : assertNextAcademicYear db fromAY dto.toAcademicYearId with
        | error e => simpa [hay, hc, hempty, hn] using h
        | ok _ =>
          cases hrc : resolveTargetClassId db dto with
          | error e => simpa [hay, hc, hempty, hn, hrc] using h
          | ok tc =>
            cases hmap : mapExcept
                (promoteDocBuilder dto
                  (promoteSectionMapping db dto (selectPromoteCandidates db dto fromAY) tc) tc)
                (selectPromoteCandidates db dto fromAY) with
            | error e => simpa [hay, hc, hempty, hn, hrc, hmap] using h
            | ok docs =>
              simpa [hay, hc, hempty, hn, hrc, hmap] using
                rollsUnique_insertMany docs db.enrollments h

theorem reAdmitStep_rollsUnique (db₀ : DB) (cid sid ay cn sn : String)
    (st : ReAdmitLoopState) (stu : Student)
    (h : RollsUnique st.enrollments) :
    RollsUnique (reAdmitStep db₀ cid sid ay cn sn st stu).enrollments := by
  unfold reAdmitStep
  by_cases hdup : db₀.enrollments.any (fun e =>
      e.studentId == stu._id && e.academicYearId == ay) = true
  · simpa [hdup] using h
  · cases hins : insertEnrollment st.enrollments
        { studentId := stu._id, academicYearId := ay, classId := cid, sectionId := sid,
          rollNumber := generateRollNumber db₀.enrollments cn sn ay } with
    | error e => simpa [hdup, hins] using h
    | ok l' => simpa [hdup, hins] using rollsUnique_insert h hins

theorem reAdmitBulk_rollsUnique (db : DB) (sids : List String) (c sec y : String)
    (h : RollsUnique db.enrollments) :
    RollsUnique ((reAdmitBulk db sids c sec y).2).enrollments := by
  unfold reAdmitBulk
  by_cases hemp : sids.isEmpty = true
  · simpa [hemp] using h
  · cases hcl : findClass db c with
    | none => simpa [hemp, hcl] using h
    | some cd =>
      cases hsec : findSection db sec with
      | none => simpa [hemp, hcl, hsec] using h
      | some sd =>
        have hloop : ∀ (students : List Student) (st : ReAdmitLoopState),
            RollsUnique st.enrollments →
            RollsUnique (students.foldl (reAdmitStep db c sec y cd.name sd.name) st).enrollments := by
          intro students
          induction students with
          | nil => intro st hst; exact hst
          | cons a l ih =>
            intro st hst
            rw [List.foldl_cons]
            exact ih _ (reAdmitStep_rollsUnique db c sec y cd.name sd.name st a hst)
        cases hstl : db.students.filter (fun s => sids.contains s._id) with
        | nil => simpa [hemp, hcl, hsec, hstl] using h
        | cons a l =>
          have hres := hloop (a :: l)
            { enrollments := db.enrollments, students := db.students,
              successCount := 0, errors := [] } h
          simp only [List.foldl_cons] at hres
          simpa [hemp, hcl, hsec, hstl] using hres

theorem update_rollsUnique (db : DB) (id : String) (dto : UpdateStudentDto)
    (h : RollsUnique db.enrollments) :
    RollsUnique (((update db id dto).2).enrollments) := by
  rcases update_db_cases db id dto with hdb | hdb
  · rw [hdb]; exact h
  · rw [hdb]
    rcases updateCore_enrollments db id dto with h2 | ⟨cur, hf, h2⟩
    · rw [h2]; exact h
    · rw [h2]
      exact rollsUnique_updateFirst
        (fun e => e.studentId == id && e.academicYearId == cur.academicYearId)
        (fun e => { e with
          classId := dto.classId.getD cur.classId,
          sectionId := dto.sectionId.getD cur.sectionId })
        (fun e => ⟨rfl, rfl⟩) db.enrollments h

/-- The states reachable from a ledger satisfying the uniqueness
invariant through the modelled service operations. -/
inductive Reachable : DB → Prop where
  | init (db : DB) (h : RollsUnique db.enrollments) : Reachable db
  | promote (db : DB) (s c sec y : String) (h : Reachable db) :
      Reachable (promote db s c sec y).2
  | promoteBulk (db : DB) (dto : PromoteBulkDto) (hd : Option String) (h : Reachable db) :
      Reachable (promoteBulk db dto hd).2
  | reAdmit (db : DB) (s c sec y : String) (h : Reachable db) :
      Reachable (reAdmit db s c sec y).2
  | reAdmitBulk (db : DB) (sids : List String) (c sec y : String) (h : Reachable db) :
      Reachable (reAdmitBulk db sids c sec y).2
  | update (db : DB) (id : String) (dto : UpdateStudentDto) (h : Reachable db) :
      Reachable (update db id dto).2

theorem reachable_rollsUnique (db : DB) (h : Reachable db) : RollsUnique db.enrollments := by
  induction h with
  | init db h => exact h
  | promote db s c sec y h ih => exact promote_rollsUnique db s c sec y ih
  | promoteBulk db dto hd h ih => exact promoteBulk_rollsUnique db dto hd ih
  | reAdmit db s c sec y h ih => exact reAdmit_rollsUnique db s c sec y ih
  | reAdmitBulk db sids c sec y h ih => exact reAdmitBulk_rollsUnique db sids c sec y ih
  | update db id dto h ih => exact update_rollsUnique db id dto ih

end DevLearningCircle

namespace DevLearningCircle

theorem gen_first_10A (l : List Enrollment) (y : String)
    (h : ∀ e ∈ l, (e.academicYearId == y && strPrefB "10-A-" e.rollNumber) = false) :
    generateRollNumber l "10" "a" y = "10-A-001" := by
  unfold generateRollNumber
  dsimp only
  have hpref : (jsTrim (jsToUpper "10") ++ "-" ++ jsTrim (jsToUpper "a") ++ "-") = "10-A-" := by
    decide
  rw [hpref]
  have hfil : l.filter (fun e => e.academicYearId == y && strPrefB "10-A-" e.rollNumber) = [] := by
    apply List.filter_eq_nil_iff.mpr
    intro e he
    simp [h e he]
  rw [hfil]
  decide

theorem gen_second_10A (l : List Enrollment) (y : String) (e0 : Enrollment)
    (h : l.filter (fun e => e.academicYearId == y && strPrefB "10-A-" e.rollNumber) = [e0])
    (hroll : e0.rollNumber = "10-A-001") :
    generateRollNumber l "10" "a" y = "10-A-002" := by
  unfold generateRollNumber
  dsimp only
  have hpref : (jsTrim (jsToUpper "10") ++ "-" ++ jsTrim (jsToUpper "a") ++ "-") = "10-A-" := by
    decide
  rw [hpref, h]
  simp only [List.map_cons, List.map_nil, hroll]
  decide

end DevLearningCircle


namespace DevLearningCircle

def wYearCur : AcademicYear :=
  { _id := "Y1", name := "2024-2025", label := none, order := some 1,
    startDate := some 0, endDate := some 100, isActive := true, isCurrent := true }

def wYearNext : AcademicYear :=
  { _id := "Y2", name := "2025-2026", label := none, order := some 2,
    startDate := some 200, endDate := some 300, isActive := true, isCurrent := false }

def wClass1 : SchoolClass := { _id := "C1", name := "1", order := some 1 }
def wClass2 : SchoolClass := { _id := "C2", name := "2", order := some 2 }
def wSec1 : SchoolSection := { _id := "S1", name := "a", classId := "C1" }
def wSec2 : SchoolSection := { _id := "S2", name := "a", classId := "C2" }

def wStu : Student :=
  { _id := "ST1", name := "Alice", email := "alice@example.com", rollNumber := "1-A-001",
    classId := "C1", sectionId := "S1", academicYearId := "Y1" }

def wEnr1 : Enrollment :=
  { studentId := "ST1", academicYearId := "Y1", classId := "C1", sectionId := "S1",
    rollNumber := "1-A-001" }

def wDb : DB :=
  { years := [wYearCur, wYearNext], classes := [wClass1, wClass2],
    sections := [wSec1, wSec2], students := [wStu], enrollments := [wEnr1] }

def wStuAfter : Student :=
  { wStu with classId := "C2", sectionId := "S2", academicYearId := "Y2" }

def wEnr2 : Enrollment :=
  { studentId := "ST1", academicYearId := "Y2", classId := "C2", sectionId := "S2",
    rollNumber := "1-A-001" }

def wDbAfter : DB :=
  { wDb with students := [wStuAfter], enrollments := [wEnr1, wEnr2] }

def wStuRe : Student :=
  { wStu with
    classId := "C2", sectionId := "S2", academicYearId := "Y3", rollNumber := "2-A-001" }

def wEnrRe : Enrollment :=
  { studentId := "ST1", academicYearId := "Y3", classId := "C2", sectionId := "S2",
    rollNumber := "2-A-001" }

def wDbRe : DB :=
  { wDb with students := [wStuRe], enrollments := [wEnr1, wEnrRe] }

end DevLearningCircle

namespace DevLearningCircle

def cxYearFrom : AcademicYear :=
  { _id := "F", name := "2024-2025", label := none, order := none,
    startDate := some 0, endDate := some 100, isActive := true, isCurrent := false }

def cxYearTo : AcademicYear :=
  { _id := "T", name := "2026-2027", label := none, order := none,
    startDate := some 200, endDate := some 300, isActive := true, isCurrent := false }

def cxDbC2 : DB :=
  { years := [cxYearFrom, cxYearTo], classes := [], sections := [], students := [],
    enrollments := [] }

def cxYearOnly : AcademicYear :=
  { _id := "YA", name := "2024-2025", label := none, order := none,
    startDate := some 0, endDate := some 100, isActive := true, isCurrent := false }

def cxYearTarget : AcademicYear :=
  { _id := "YB", name := "2025-2026", label := none, order := none,
    startDate := some 200, endDate := some 300, isActive := false, isCurrent := false }

def cxStuC3 : Student :=
  { _id := "ST3", name := "Bea", email := "bea@example.com", rollNumber := "1-A-001",
    classId := "C1", sectionId := "S1", academicYearId := "YA" }

def cxDbC3 : DB :=
  { years := [cxYearOnly, cxYearTarget], classes := [], sections := [],
    students := [cxStuC3],
    enrollments := [{ studentId := "ST3", academicYearId := "YA", classId := "C1",
                      sectionId := "S1", rollNumber := "1-A-001" }] }

def wYearInactive : AcademicYear :=
  { _id := "YI", name := "2023-2024", label := none, order := none,
    startDate := some 0, endDate := some 100, isActive := false, isCurrent := false }

def wStuC3 : Student :=
  { _id := "ST4", name := "Cam", email := "cam@example.com", rollNumber := "1-A-002",
    classId := "C1", sectionId := "S1", academicYearId := "YI" }

def wDbC3 : DB :=
  { years := [wYearInactive], classes := [], sections := [], students := [wStuC3],
    enrollments := [] }

def cxStuC4 : Student :=
  { _id := "ST5", name := "Cy", email := "cy@example.com", rollNumber := "1-A-001",
    classId := "C1", sectionId := "S1", academicYearId := "Y1" }

def cxEnrC4 : Enrollment :=
  { studentId := "ST5", academicYearId := "Y2", classId := "C2", sectionId := "S2",
    rollNumber := "2-A-001" }

def cxDbC4 : DB :=
  { years := [wYearCur, wYearNext], classes := [], sections := [], students := [cxStuC4],
    enrollments := [{ studentId := "ST5", academicYearId := "Y1", classId := "C1",
                      sectionId := "S1", rollNumber := "1-A-001" }, cxEnrC4] }

def cxStuC5 : Student :=
  { _id := "ST8", name := "Eve", email := "eve@example.com", rollNumber := "1-A-001",
    classId := "C1", sectionId := "S1", academicYearId := "Y1" }

def cxEnrC5 : Enrollment :=
  { studentId := "ST8", academicYearId := "Y1", classId := "C1", sectionId := "S1",
    rollNumber := "1-A-001" }

def cxDbC5 : DB :=
  { years := [], classes := [], sections := [], students := [cxStuC5],
    enrollments := [cxEnrC5] }

def cxDtoC5 : UpdateStudentDto :=
  { name := none, email := none, rollNumber := none, classId := some "C2",
    sectionId := none, academicYearId := none }

def wSecB1 : SchoolSection := { _id := "SB1", name := "b", classId := "C1" }

def wStuC6 : Student :=
  { _id := "ST6", name := "Dee", email := "dee@example.com", rollNumber := "1-B-001",
    classId := "C1", sectionId := "SB1", academicYearId := "Y1" }

def wDtoC6 : PromoteBulkDto :=
  { fromClassId := "C1", fromAcademicYearId := some "Y1", toAcademicYearId := "Y2",
    fromSectionId := none, targetClassId := some "C2", targetSectionId := none,
    studentIds := none }

def wDbC6 : DB :=
  { years := [wYearCur, wYearNext], classes := [wClass1, wClass2],
    sections := [wSecB1, wSec2], students := [wStuC6],
    enrollments := [{ studentId := "ST6", academicYearId := "Y1", classId := "C1",
                      sectionId := "SB1", rollNumber := "1-B-001" }] }

def cxClassC7 : SchoolClass := { _id := "CA", name := "10", order := some 10 }
def cxSecC7 : SchoolSection := { _id := "SA", name := "a", classId := "CA" }

def cxStuC7a : Student :=
  { _id := "s1", name := "Alice", email := "a@example.com", rollNumber := "r1",
    classId := "C0", sectionId := "S0", academicYearId := "Y0" }

def cxStuC7b : Student :=
  { _id := "s2", name := "Bob", email := "b@example.com", rollNumber := "r2",
    classId := "C0", sectionId := "S0", academicYearId := "Y0" }

def cxDbC7 : DB :=
  { years := [], classes := [cxClassC7], sections := [cxSecC7],
    students := [cxStuC7a, cxStuC7b], enrollments := [] }

def cxDbC7After : DB :=
  { cxDbC7 with
    students := [{ cxStuC7a with
      classId := "CA", sectionId := "SA", academicYearId := "YN", rollNumber := "10-A-001" },
      cxStuC7b],
    enrollments := [{ studentId := "s1", academicYearId := "YN", classId := "CA",
                      sectionId := "SA", rollNumber := "10-A-001" }] }

def wDtoC10 : PromoteBulkDto :=
  { fromClassId := "NOPE", fromAcademicYearId := some "Y1", toAcademicYearId := "Y1",
    fromSectionId := none, targetClassId := none, targetSectionId := none,
    studentIds := some ["ghost"] }

end DevLearningCircle

namespace DevLearningCircle

/-- The spec's year-sequencing rule, parameterised by the field used for
the "YYYY-YYYY" parse (the spec reads `name`, the code reads `label`). -/
def specNextYearRule (lab : AcademicYear → Option String) (f t : AcademicYear) : Bool :=
  match f.order, t.order with
  | some fo, some t_o => t_o == fo + 1
  | _, _ =>
    match parseAYLabel (lab f), parseAYLabel (lab t) with
    | some pf, some pt => pt.1 == pf.1 + 1 && pt.2 == pf.2 + 1
    | _, _ =>
      match f.endDate, t.startDate with
      | some fe, some ts => decide (fe < ts)
      | _, _ => false

/-- Claim C2 (amended): the sequence validator of `promote` and
`promoteBulk` rejects same-year promotions, then requires
`target.order == source.order + 1` when both years carry an `order`,
then parses the years' `label` fields (not their `name` fields, contrary
to the original claim) as "YYYY-YYYY" requiring both components to
increment by 1, then falls back to `target.startDate > source.endDate`;
every failure is a `BadRequestException` (the spec's ValidationError). -/
theorem C2_sequence_validator_amended (db : DB) (a b : String) (f t : AcademicYear)
    (hf : getAcademicYearById db a = .ok f) (ht : getAcademicYearById db b = .ok t) :
    (assertNextAcademicYear db a b = .ok () ↔
      (a ≠ b ∧ specNextYearRule (fun q => q.label) f t = true)) ∧
    (∀ e, assertNextAcademicYear db a b = .error e → ∃ m, e = .badRequest m) := by
  refine ⟨?_, fun e he => assertNext_error_shape db a b e he⟩
  unfold assertNextAcademicYear specNextYearRule
  by_cases hab : (a == b) = true
  · rw [if_pos hab]
    have hab' : a = b := by simpa using hab
    constructor
    · intro hcontr; cases hcontr
    · rintro ⟨hne, _⟩; exact absurd hab' hne
  · rw [if_neg hab]
    have hne : a ≠ b := by simpa using hab
    simp only [hf, ht, ne_eq, hne, not_false_eq_true, true_and]
    cases hfo : f.order <;> cases hto : t.order <;>
      simp only [hfo, hto] <;>
      try (rename_i t_o fo; by_cases hord : t_o = fo + 1 <;> simp [hord])
    all_goals
      cases hpf : parseAYLabel f.label <;> cases hpt : parseAYLabel t.label <;>
        simp only [hpf, hpt] <;>
        try (rename_i pf pt
             by_cases hlab : (pt.1 == pf.1 + 1 && pt.2 == pf.2 + 1) = true <;> simp [hlab])
    all_goals
      cases hfe : f.endDate <;> cases hts : t.startDate <;>
        simp only [hfe, hts] <;>
        try (rename_i ts fe; by_cases hdt : fe < ts <;> simp [hdt])
    all_goals simp

end DevLearningCircle

namespace DevLearningCircle

theorem C2_name_precedence_cx :
    parseAYLabel (some cxYearFrom.name) = some (2024, 2025) ∧
    parseAYLabel (some cxYearTo.name) = some (2026, 2027) ∧
    cxYearFrom.order = none ∧ cxYearTo.order = none ∧
    specNextYearRule (fun q => some q.name) cxYearFrom cxYearTo = false ∧
    assertNextAcademicYear cxDbC2 "F" "T" = .ok () := by decide

theorem C2_sequence_validator_amended_witness :
    assertNextAcademicYear wDb "Y1" "Y2" = .ok () :=
  ((C2_sequence_validator_amended wDb "Y1" "Y2" wYearCur wYearNext (by decide)
    (by decide)).1).mpr ⟨by decide, by decide⟩

/-- Claim C3 (amended): `promote` fails with a ValidationError whenever
the resolved current year (the `isCurrent`-flagged record, else the
most-recently-started active record) differs from the student's snapshot
year, and likewise when no year is flagged current and no year is active
at all.  The original claim (`Y.isCurrent == false` alone suffices) is
refuted by `C3_current_year_gate_cx`. -/
theorem C3_current_year_gate_amended (db : DB) (s c sec y : String) (st : Student)
    (hf : findStudent db s = some st) :
    (∀ cur, resolveCurrentYear db = .ok cur → cur._id ≠ st.academicYearId →
      promote db s c sec y = (.error (.badRequest
        "Promotion is only allowed from the current academic year. Please select the current academic year in the topbar."), db)) ∧
    (db.years.find? (fun q => q.isCurrent) = none →
     db.years.filter (fun q => q.isActive) = [] →
      promote db s c sec y = (.error (.badRequest
        "No current or active academic year is set. Please set a current year first."), db)) := by
  constructor
  · intro cur hres hcne
    have hgate : assertIsCurrentAcademicYear db st.academicYearId = .error (.badRequest
        "Promotion is only allowed from the current academic year. Please select the current academic year in the topbar.") := by
      unfold assertIsCurrentAcademicYear
      simp only [hres]
      rw [if_pos hcne]
    unfold promote
    simp only [hf, hgate]
  · intro hnc hna
    have hres : resolveCurrentYear db = .error (.badRequest
        "No current or active academic year is set. Please set a current year first.") := by
      unfold resolveCurrentYear
      simp only [hnc, hna]
      rfl
    have hgate : assertIsCurrentAcademicYear db st.academicYearId = .error (.badRequest
        "No current or active academic year is set. Please set a current year first.") := by
      unfold assertIsCurrentAcademicYear
      simp only [hres]
    unfold promote
    simp only [hf, hgate]

theorem C3_current_year_gate_cx :
    cxYearOnly.isCurrent = false ∧
    (∀ q ∈ cxDbC3.years, q._id ≠ cxYearOnly._id → q.isActive = false) ∧
    cxStuC3.academicYearId = cxYearOnly._id ∧
    (promote cxDbC3 "ST3" "C9" "S9" "YB").1 =
      .ok { cxStuC3 with classId := "C9", sectionId := "S9", academicYearId := "YB" } := by
  decide

theorem C3_current_year_gate_amended_witness :
    promote wDbC3 "ST4" "C1" "S1" "Y2" =
      (.error (.badRequest
        "No current or active academic year is set. Please set a current year first."), wDbC3) :=
  (C3_current_year_gate_amended wDbC3 "ST4" "C1" "S1" "Y2" wStuC3 (by decide)).2
    (by decide) (by decide)

end DevLearningCircle

namespace DevLearningCircle

/-- True when the two errors are instances of the same error class. -/
def sameErrClass : Err → Err → Bool
  | .badRequest _, .badRequest _ => true
  | .notFound _, .notFound _ => true
  | .dupKey _, .dupKey _ => true
  | _, _ => false

theorem C4_conflict_class_cx :
    cxEnrC4 ∈ cxDbC4.enrollments ∧ cxEnrC4.studentId = "ST5" ∧ cxEnrC4.academicYearId = "Y2" ∧
    (reAdmit cxDbC4 "ST5" "C2" "S2" "Y2").1 =
      .error (.badRequest "Student already has an enrollment for this academic year") ∧
    (promote cxDbC4 "ST5" "C2" "S2" "Y1").1 =
      .error (.badRequest "Target academic year must be the next one (cannot use the same year).") ∧
    sameErrClass
      (.badRequest "Student already has an enrollment for this academic year")
      (.badRequest "Target academic year must be the next one (cannot use the same year).") =
      true := by decide

/-- Claim C4 (amended): when a ledger entry `(s, y2)` already exists,
`reAdmit` targeting `(s, y2)` fails with the duplicate-enrollment
`BadRequestException` and `promote` targeting `(s, y2)` fails with some
`BadRequestException`, in both cases leaving the database unchanged.
There is no distinct conflict error class (see `C4_conflict_class_cx`). -/
theorem C4_duplicate_enrollment_amended (db : DB) (s c sec y2 : String) (st : Student)
    (hf : findStudent db s = some st)
    (hdup : db.enrollments.any (fun e => e.studentId == s && e.academicYearId == y2) = true) :
    reAdmit db s c sec y2 =
      (.error (.badRequest "Student already has an enrollment for this academic year"), db) ∧
    ∃ e, promote db s c sec y2 = (.error e, db) ∧ ∃ m, e = .badRequest m := by
  constructor
  · unfold reAdmit
    simp only [hf, hdup]
    rfl
  · unfold promote
    simp only [hf]
    cases hc : assertIsCurrentAcademicYear db st.academicYearId with
    | error e =>
      simp only [hc]
      exact ⟨e, rfl, assertIsCurrent_error_shape db st.academicYearId e hc⟩
    | ok u =>
      cases u
      simp only [hc]
      cases hn : assertNextAcademicYear db st.academicYearId y2 with
      | error e =>
        simp only [hn]
        exact ⟨e, rfl, assertNext_error_shape db st.academicYearId y2 e hn⟩
      | ok u2 =>
        cases u2
        simp only [hn, hdup]
        exact ⟨.badRequest "Student already has an enrollment for this academic year",
          rfl, _, rfl⟩

theorem C4_duplicate_enrollment_amended_witness :
    reAdmit cxDbC4 "ST5" "C2" "S2" "Y2" =
      (.error (.badRequest "Student already has an enrollment for this academic year"),
        cxDbC4) ∧
    ∃ e, promote cxDbC4 "ST5" "C2" "S2" "Y2" = (.error e, cxDbC4) ∧ ∃ m, e = .badRequest m :=
  C4_duplicate_enrollment_amended cxDbC4 "ST5" "C2" "S2" "Y2" cxStuC4 (by decide) (by decide)

end DevLearningCircle

namespace DevLearningCircle

/-- Claim C1: after every successful `promote`, `reAdmit`, `promoteBulk`
or `reAdmitBulk`, each affected student's snapshot fields `(classId,
sectionId, academicYearId, rollNumber)` exactly equal the corresponding
fields of the ledger entry newly created for that student by the call. -/
theorem C1_snapshot_ledger_consistency :
    (∀ (db : DB) (s c sec y : String) (st' : Student) (db' : DB),
      promote db s c sec y = (.ok st', db') →
      ∃ e, db'.enrollments = db.enrollments ++ [e] ∧ e.studentId = s ∧ e.academicYearId = y ∧
        findStudent db' s = some st' ∧ snapshotMatches st' e) ∧
    (∀ (db : DB) (s c sec y : String) (st' : Student) (db' : DB),
      reAdmit db s c sec y = (.ok st', db') →
      ∃ e, db'.enrollments = db.enrollments ++ [e] ∧ e.studentId = s ∧ e.academicYearId = y ∧
        findStudent db' s = some st' ∧ snapshotMatches st' e) ∧
    (∀ (db : DB) (dto : PromoteBulkDto) (hd : Option String) (r : PromoteBulkResult) (db' : DB),
      promoteBulk db dto hd = (.ok r, db') →
      (db.students.map (fun t => t._id)).Nodup →
      ∀ e ∈ db'.enrollments, e ∉ db.enrollments →
        ∃ st', findStudent db' e.studentId = some st' ∧ snapshotMatches st' e) ∧
    (∀ (db : DB) (sids : List String) (c sec y : String) (r : ReAdmitBulkResult) (db' : DB),
      reAdmitBulk db sids c sec y = (.ok r, db') →
      (db.students.map (fun t => t._id)).Nodup →
      ∀ e ∈ db'.enrollments, e ∉ db.enrollments →
        ∃ st', findStudent db' e.studentId = some st' ∧ snapshotMatches st' e) :=
  ⟨promote_snapshot_ledger, reAdmit_snapshot_ledger,
   promoteBulk_snapshot_ledger, reAdmitBulk_snapshot_ledger⟩

theorem C1_snapshot_ledger_consistency_witness :
    ∃ e, wDbAfter.enrollments = wDb.enrollments ++ [e] ∧ e.studentId = "ST1" ∧
      e.academicYearId = "Y2" ∧ findStudent wDbAfter "ST1" = some wStuAfter ∧
      snapshotMatches wStuAfter e :=
  C1_snapshot_ledger_consistency.1 wDb "ST1" "C2" "S2" "Y2" wStuAfter wDbAfter (by decide)

theorem C5_ledger_immutability_cx :
    cxDbC5.enrollments = [cxEnrC5] ∧
    ((update cxDbC5 "ST8" cxDtoC5).2).enrollments = [{ cxEnrC5 with classId := "C2" }] ∧
    ({ cxEnrC5 with classId := "C2" } : Enrollment).classId ≠ cxEnrC5.classId := by decide

/-- Claim C5 (amended): `promote`, `reAdmit`, `promoteBulk` and
`reAdmitBulk` only ever append to the enrollment ledger, and `update`
relates the old and new ledgers pointwise by `UpdateEntryRel`: an entry
is either untouched, or it is the updated student's current-snapshot-year
entry with only `classId`/`sectionId` rewritten (so, contrary to the
original claim, the ledger is not fully immutable). -/
theorem C5_ledger_mutation_scope_amended :
    (∀ (db : DB) (s c sec y : String),
      ∃ tail, ((promote db s c sec y).2).enrollments = db.enrollments ++ tail) ∧
    (∀ (db : DB) (s c sec y : String),
      ∃ tail, ((reAdmit db s c sec y).2).enrollments = db.enrollments ++ tail) ∧
    (∀ (db : DB) (dto : PromoteBulkDto) (hd : Option String),
      ∃ tail, ((promoteBulk db dto hd).2).enrollments = db.enrollments ++ tail) ∧
    (∀ (db : DB) (sids : List String) (c sec y : String),
      ∃ tail, ((reAdmitBulk db sids c sec y).2).enrollments = db.enrollments ++ tail) ∧
    (∀ (db : DB) (id : String) (dto : UpdateStudentDto),
      List.Forall₂ (UpdateEntryRel db id) db.enrollments (((update db id dto).2).enrollments)) :=
  ⟨promote_enrollments_append, reAdmit_enrollments_append, promoteBulk_enrollments_append,
   reAdmitBulk_enrollments_append, update_enrollments_forall2⟩

/-- Claim C7 (code bug): on a ledger with no enrollments at all, bulk
re-admission of two distinct fresh students generates the same roll
number for both (the roll query reads the committed ledger, ignoring the
transaction session), so the second insert violates the
`(academicYearId, rollNumber)` unique index and the call reports
`successful = 1, failed = 1` with a duplicate-key error instead of the
claimed `successful = n, failed = k` over already-enrolled students. -/
theorem C7_readmit_bulk_duplicate_roll :
    cxDbC7.enrollments = [] ∧ cxStuC7a._id ≠ cxStuC7b._id ∧
    reAdmitBulk cxDbC7 ["s1", "s2"] "CA" "SA" "YN" =
      (.ok { total := 2, successful := 1, failed := 1,
             errors := some [{ studentId := "s2", name := "Bob",
                               error := "E11000 duplicate key error" }] }, cxDbC7After) := by
  decide

end DevLearningCircle

namespace DevLearningCircle

def wEnrC8 : Enrollment :=
  { studentId := "sx", academicYearId := "YN", classId := "CA", sectionId := "SA",
    rollNumber := "10-A-001" }

/-- Claim C8: for class "10" and section "a", the first roll generated in
a year with no matching enrollments is "10-A-001", a second generation
after the first is committed yields "10-A-002", and every ledger state
reachable through the service operations keeps roll numbers unique
within each year. -/
theorem C8_roll_generation :
    (∀ (l : List Enrollment) (y : String),
      (∀ e ∈ l, (e.academicYearId == y && strPrefB "10-A-" e.rollNumber) = false) →
      generateRollNumber l "10" "a" y = "10-A-001") ∧
    (∀ (l : List Enrollment) (y : String) (e0 : Enrollment),
      l.filter (fun e => e.academicYearId == y && strPrefB "10-A-" e.rollNumber) = [e0] →
      e0.rollNumber = "10-A-001" →
      generateRollNumber l "10" "a" y = "10-A-002") ∧
    (∀ db : DB, Reachable db → RollsUnique db.enrollments) :=
  ⟨gen_first_10A, gen_second_10A, reachable_rollsUnique⟩

theorem C8_roll_generation_witness :
    generateRollNumber [] "10" "a" "YN" = "10-A-001" ∧
    generateRollNumber [wEnrC8] "10" "a" "YN" = "10-A-002" ∧
    RollsUnique ((promote wDb "ST1" "C2" "S2" "Y2").2).enrollments :=
  ⟨C8_roll_generation.1 [] "YN" (fun e he => absurd he (List.not_mem_nil e)),
   C8_roll_generation.2.1 [wEnrC8] "YN" wEnrC8 (by decide) rfl,
   C8_roll_generation.2.2 _ (Reachable.promote wDb "ST1" "C2" "S2" "Y2"
     (Reachable.init wDb (by simp [RollsUnique, wDb])))⟩

/-- Claim C9: a successful single promotion writes the student's
pre-existing roll number to both the new ledger entry and the snapshot,
whereas a successful re-admission writes a freshly generated roll number
for the target class, section and year to both. -/
theorem C9_roll_carry_vs_fresh :
    (∀ (db : DB) (s c sec y : String) (st0 st' : Student) (db' : DB),
      findStudent db s = some st0 → promote db s c sec y = (.ok st', db') →
      db'.enrollments = db.enrollments ++
        [{ studentId := s, academicYearId := y, classId := c, sectionId := sec,
           rollNumber := st0.rollNumber }] ∧
      st'.rollNumber = st0.rollNumber) ∧
    (∀ (db : DB) (s c sec y : String) (cd : SchoolClass) (sd : SchoolSection)
        (st' : Student) (db' : DB),
      findClass db c = some cd → findSection db sec = some sd →
      reAdmit db s c sec y = (.ok st', db') →
      db'.enrollments = db.enrollments ++
        [{ studentId := s, academicYearId := y, classId := c, sectionId := sec,
           rollNumber := generateRollNumber db.enrollments cd.name sd.name y }] ∧
      st'.rollNumber = generateRollNumber db.enrollments cd.name sd.name y) :=
  ⟨promote_roll_carry, reAdmit_roll_fresh⟩

theorem C9_roll_carry_vs_fresh_witness :
    (wDbAfter.enrollments = wDb.enrollments ++
        [{ studentId := "ST1", academicYearId := "Y2", classId := "C2", sectionId := "S2",
           rollNumber := wStu.rollNumber }] ∧
      wStuAfter.rollNumber = wStu.rollNumber) ∧
    (wDbRe.enrollments = wDb.enrollments ++
        [{ studentId := "ST1", academicYearId := "Y3", classId := "C2", sectionId := "S2",
           rollNumber := generateRollNumber wDb.enrollments wClass2.name wSec2.name "Y3" }] ∧
      wStuRe.rollNumber = generateRollNumber wDb.enrollments wClass2.name wSec2.name "Y3") :=
  ⟨C9_roll_carry_vs_fresh.1 wDb "ST1" "C2" "S2" "Y2" wStu wStuAfter wDbAfter
      (by decide) (by decide),
   C9_roll_carry_vs_fresh.2 wDb "ST1" "C2" "S2" "Y3" wClass2 wSec2 wStuRe wDbRe
      (by decide) (by decide) (by decide)⟩

theorem C6_unmapped_section_abort_witness :
    ∃ s', s' ∈ selectPromoteCandidates wDbC6 wDtoC6 "Y1" ∧ jsTruthy s'.sectionId = true ∧
      ([] : List (String × String)).lookup s'.sectionId = none ∧
      promoteBulk wDbC6 wDtoC6 none =
        (.error (.badRequest (noMatchingSectionMsg s'.sectionId)), wDbC6) :=
  C6_unmapped_section_abort wDbC6 wDtoC6 none "Y1" "C2" wStuC6 [] (by decide) (by decide)
    (by decide) (by decide) (by decide) (by decide) (by decide) (by decide) (by decide)

theorem C10_empty_filter_early_return_witness :
    promoteBulk wDb wDtoC10 none =
      (.ok { selected := 1, matched := 0, modified := 0, toAcademicYearId := none,
             targetClassId := none, targetSectionId := none }, wDb) :=
  C10_empty_filter_early_return wDb wDtoC10 none "Y1" (by decide) (by decide) (by decide)

end DevLearningCircle
